import Mathlib

/-!
Verification development for the airline customer-booking retrieval engine
(`MS3/base_retrieve.py` and `MS3/preprocessing.py`).

The Python dict values appearing in entity/parameter bags are embedded as
`Value`; bags themselves are insertion-ordered association lists, matching
Python dict semantics (unique keys, `d[k] = v` replaces in place or appends,
`d.pop(k)` removes the entry).  Python exceptions are embedded as `Except
PyErr`.
-/

set_option maxRecDepth 100000
set_option maxHeartbeats 2000000

namespace Airline

/-- Python exception outcomes that the embedded code can raise. -/
inductive PyErr where
  | attributeError : PyErr
  | keyError : String → PyErr
deriving DecidableEq

/-- A value stored in an entity/parameter bag (a Python dict value). -/
inductive Value where
  | str : String → Value
  | intV : Int → Value
  | null : Value
deriving DecidableEq

/-- An entity/parameter bag: a Python dict, as an insertion-ordered
association list. -/
abbrev Bag := List (String × Value)

/-- Python `d[k]` / `d.get(k)`: first (unique) entry for the key. -/
def bagGet : Bag → String → Option Value
  | [], _ => Option.none
  | (k, v) :: rest, key => if k = key then some v else bagGet rest key

/-- Python `k in d`. -/
def bagHasKey (b : Bag) (k : String) : Bool := (bagGet b k).isSome

/-- Python `d[k] = v`: replaces the value in place if the key exists,
otherwise appends a new entry (dict insertion order). -/
def bagSet : Bag → String → Value → Bag
  | [], k, v => [(k, v)]
  | (k', v') :: rest, k, v =>
    if k' = k then (k, v) :: rest else (k', v') :: bagSet rest k v

/-- Python `d.pop(k)` side effect: removes the entry for the key. -/
def bagErase : Bag → String → Bag
  | [], _ => []
  | (k', v') :: rest, k => if k' = k then rest else (k', v') :: bagErase rest k

def bagKeys (b : Bag) : List String := b.map Prod.fst

/-- Well-formedness of a dict encoding: keys are unique. -/
def BagWF (b : Bag) : Prop := (bagKeys b).Nodup

/-- Every value in the bag is a string. -/
def BagAllStr (b : Bag) : Prop := ∀ p ∈ b, ∃ s, p.2 = Value.str s

instance : DecidablePred BagWF := fun b => by
  unfold BagWF; infer_instance

instance : DecidablePred BagAllStr := fun b => by
  unfold BagAllStr
  have : ∀ p : String × Value, Decidable (∃ s, p.2 = Value.str s) := by
    intro p
    cases h : p.2 with
    | str s => exact isTrue ⟨s, rfl⟩
    | intV n => exact isFalse (by simp [h])
    | null => exact isFalse (by simp [h])
  infer_instance

/-! ### String helpers (Python `str` methods used by the code) -/

/-- Python `s.lower()` (ASCII case folding, which is all the code relies on). -/
def lowerStr (s : String) : String := String.mk (s.data.map Char.toLower)

/-- Python `needle in hay` substring test. -/
def containsSub (hay needle : String) : Bool := decide (needle.data <:+: hay.data)

/-- Boolean prefix test on char lists. -/
def isPrefixCL : List Char → List Char → Bool
  | [], _ => true
  | _ :: _, [] => false
  | p :: ps, c :: cs => p = c && isPrefixCL ps cs

/-- Worker for `replaceStr`; the fuel is the length of the remaining input,
which bounds the recursion since each step consumes at least one character. -/
def replaceCore : Nat → List Char → List Char → List Char → List Char
  | 0, s, _, _ => s
  | _ + 1, [], _, _ => []
  | fuel + 1, c :: rest, pat, rep =>
    if pat ≠ [] && isPrefixCL pat (c :: rest) then
      rep ++ replaceCore fuel ((c :: rest).drop pat.length) pat rep
    else c :: replaceCore fuel rest pat rep

/-- Python `s.replace(pat, rep)`: replace all non-overlapping occurrences,
left to right (the code only uses non-empty patterns). -/
def replaceStr (s pat rep : String) : String :=
  String.mk (replaceCore s.data.length s.data pat.data rep.data)

/-- Python `"sep".join(parts)`. -/
def joinWithStr (sep : String) : List String → String
  | [] => ""
  | [x] => x
  | x :: y :: rest => x ++ sep ++ joinWithStr sep (y :: rest)

/-- List-level version of `joinWithStr`, used in proofs about the joined text. -/
def joinWithL (sep : List Char) : List (List Char) → List Char
  | [] => []
  | [x] => x
  | x :: y :: rest => x ++ sep ++ joinWithL sep (y :: rest)

/-! ### `Neo4jRetriever.normalize_entities` (base_retrieve.py lines 32-65) -/

/-- Value-level generation de-pluralization (base_retrieve.py lines 41-46):
`gen = clean['generation'].lower()` followed by the containment chain.
When no variant matches, the Python code leaves the entry untouched, which
coincides with rewriting it with its own value. -/
def genFix (s : String) : String :=
  let gen := lowerStr s
  if containsSub gen "boomer" then "Boomer"
  else if containsSub gen "millennial" then "Millennial"
  else if containsSub gen "gen x" then "Gen X"
  else if containsSub gen "gen z" then "Gen Z"
  else s

/-- Fix 1 of `normalize_entities`: calling `.lower()` on a non-string value
raises `AttributeError`. -/
def genStep (b : Bag) : Except PyErr Bag :=
  if bagHasKey b "generation" then
    match bagGet b "generation" with
    | some (Value.str s) => .ok (bagSet b "generation" (Value.str (genFix s)))
    | some _ => .error PyErr.attributeError
    | Option.none => .ok b
  else .ok b

/-- One key renaming of Fix 2: `clean[new] = clean.pop(old)` guarded by
`old in clean`. -/
def renameStep (b : Bag) (old new : String) : Bag :=
  match bagGet b old with
  | some v => bagSet (bagErase b old) new v
  | Option.none => b

/-- Fix 2 of `normalize_entities` (base_retrieve.py lines 48-54): the five
alternate-key renamings, in source order. -/
def renameAll (b : Bag) : Bag :=
  let b := renameStep b "origin_code" "origin"
  let b := renameStep b "dest_code" "dest"
  let b := renameStep b "vip_id" "record_locator"
  let b := renameStep b "loyalty_level" "loyalty_tier"
  renameStep b "passenger_class" "class"

/-- Value-level loyalty-tier canonicalization (base_retrieve.py lines 57-63):
`tier = clean['loyalty_tier'].lower().replace('-', '').replace(' ', '')`
followed by the containment chain. -/
def tierFix (s : String) : String :=
  let tier := replaceStr (replaceStr (lowerStr s) "-" "") " " ""
  if containsSub tier "premiergold" || tier = "gold" then "premier gold"
  else if containsSub tier "premiersilver" || tier = "silver" then "premier silver"
  else if containsSub tier "premierplatinum" || tier = "platinum" then "premier platinum"
  else if containsSub tier "premier1k" || tier = "1k" then "premier 1k"
  else if containsSub tier "nonelite" then "non-elite"
  else s

/-- Fix 3 of `normalize_entities`. -/
def tierStep (b : Bag) : Except PyErr Bag :=
  if bagHasKey b "loyalty_tier" then
    match bagGet b "loyalty_tier" with
    | some (Value.str s) => .ok (bagSet b "loyalty_tier" (Value.str (tierFix s)))
    | some _ => .error PyErr.attributeError
    | Option.none => .ok b
  else .ok b

/-- `Neo4jRetriever.normalize_entities` (base_retrieve.py lines 32-65). -/
def normalize_entities (b : Bag) : Except PyErr Bag := do
  let b1 ← genStep b
  tierStep (renameAll b1)

/-!
### The canned query templates of `Neo4jRetriever._get_specific_query`

Each `Q.…` definition is the text of one Python triple-quoted template
(base_retrieve.py lines 104-797).  The templates are reproduced token for
token; the only liberty taken is whitespace: the indentation and line breaks
internal to a clause of the Python literals are collapsed to single spaces,
with one newline between clauses.  Nothing in the engine depends on that
whitespace (the router only tests `'$key' in query` substrings).
-/

namespace Q

def sn_od_minDelay : String := "MATCH (o:Airport \x7bstation_code: $origin\x7d)<-[:DEPARTS_FROM]-(f:Flight)-[:ARRIVES_AT]->(d:Airport \x7bstation_code: $dest\x7d)\nMATCH (j:Journey)-[:ON]->(f)\nWHERE j.arrival_delay_minutes >= $min_delay\nRETURN f.flight_number, f.fleet_type_description, j.arrival_delay_minutes, j.feedback_ID\nORDER BY j.arrival_delay_minutes DESC LIMIT 50"

def sn_od_maxDelay : String := "MATCH (o:Airport \x7bstation_code: $origin\x7d)<-[:DEPARTS_FROM]-(f:Flight)-[:ARRIVES_AT]->(d:Airport \x7bstation_code: $dest\x7d)\nMATCH (j:Journey)-[:ON]->(f)\nWHERE j.arrival_delay_minutes <= $max_delay\nRETURN f.flight_number, f.fleet_type_description, j.arrival_delay_minutes, j.feedback_ID\nORDER BY j.arrival_delay_minutes LIMIT 50"

def sn_od_minMaxMiles : String := "MATCH (origin:Airport \x7bstation_code: $origin\x7d)<-[:DEPARTS_FROM]-(f:Flight)-[:ARRIVES_AT]->(dest:Airport \x7bstation_code: $dest\x7d)\nMATCH (j:Journey)-[:ON]->(f)\nWHERE j.actual_flown_miles >= $min_miles AND j.actual_flown_miles <= $max_miles\nRETURN DISTINCT f.flight_number, f.fleet_type_description, j.actual_flown_miles"

def sn_od_minMiles : String := "MATCH (origin:Airport \x7bstation_code: $origin\x7d)<-[:DEPARTS_FROM]-(f:Flight)-[:ARRIVES_AT]->(dest:Airport \x7bstation_code: $dest\x7d)\nMATCH (j:Journey)-[:ON]->(f)\nWHERE j.actual_flown_miles > $min_miles\nRETURN DISTINCT f.flight_number, f.fleet_type_description, j.actual_flown_miles"

def sn_od_maxMiles : String := "MATCH (origin:Airport \x7bstation_code: $origin\x7d)<-[:DEPARTS_FROM]-(f:Flight)-[:ARRIVES_AT]->(dest:Airport \x7bstation_code: $dest\x7d)\nMATCH (j:Journey)-[:ON]->(f)\nWHERE j.actual_flown_miles < $max_miles\nRETURN DISTINCT f.flight_number, f.fleet_type_description, j.actual_flown_miles"

def sn_od : String := "MATCH (o:Airport \x7bstation_code: $origin\x7d)<-[:DEPARTS_FROM]-(f:Flight)-[:ARRIVES_AT]->(d:Airport \x7bstation_code: $dest\x7d)\nRETURN f.flight_number, f.fleet_type_description"

def sn_o_maxLegs : String := "MATCH (o:Airport \x7bstation_code: $origin\x7d)<-[:DEPARTS_FROM]-(f:Flight)-[:ARRIVES_AT]->(d:Airport)\nMATCH (j:Journey)-[:ON]->(f)\nWHERE j.number_of_legs <= $max_legs\nRETURN o.station_code AS origin, d.station_code AS destination, count(f) AS flight_options_count\nORDER BY flight_options_count DESC LIMIT 50"

def sn_od_maxLegs : String := "MATCH (o:Airport \x7bstation_code: $origin\x7d)<-[:DEPARTS_FROM]-(f:Flight)-[:ARRIVES_AT]->(d:Airport \x7bstation_code: $dest\x7d)\nMATCH (j:Journey)-[:ON]->(f)\nWHERE j.number_of_legs <= $max_legs\nRETURN o.station_code AS origin, d.station_code AS destination, count(f) AS flight_options_count\nORDER BY flight_options_count DESC LIMIT 50"

def sn_o_maxMiles : String := "MATCH (o:Airport \x7bstation_code: $origin\x7d)<-[:DEPARTS_FROM]-(f:Flight)-[:ARRIVES_AT]->(d:Airport)\nMATCH (j:Journey)-[:ON]->(f)\nWHERE j.actual_flown_miles <= $max_miles\nRETURN o.station_code AS origin, d.station_code AS destination, f.flight_number, j.actual_flown_miles\nORDER BY j.actual_flown_miles LIMIT 50"

def sn_o_minMiles : String := "MATCH (o:Airport \x7bstation_code: $origin\x7d)<-[:DEPARTS_FROM]-(f:Flight)-[:ARRIVES_AT]->(d:Airport)\nMATCH (j:Journey)-[:ON]->(f)\nWHERE j.actual_flown_miles >= $min_miles\nRETURN o.station_code AS origin, d.station_code AS destination, f.flight_number, j.actual_flown_miles\nORDER BY j.actual_flown_miles DESC LIMIT 50"

def sn_o : String := "MATCH (o:Airport \x7bstation_code: $origin\x7d)<-[:DEPARTS_FROM]-(f:Flight)-[:ARRIVES_AT]->(d:Airport)\nRETURN o.station_code AS origin, d.station_code AS destination, count(f) AS flight_options_count\nORDER BY flight_options_count DESC LIMIT 50"

def sn_d : String := "MATCH (o:Airport)<-[:DEPARTS_FROM]-(f:Flight)-[:ARRIVES_AT]->(d:Airport \x7bstation_code: $dest\x7d)\nRETURN o.station_code AS origin, d.station_code AS destination, count(f) AS flight_options_count\nORDER BY flight_options_count DESC LIMIT 50"

def sn_minMaxMiles : String := "MATCH (j:Journey)-[:ON]->(f:Flight)-[:DEPARTS_FROM]->(o:Airport)\nMATCH (f)-[:ARRIVES_AT]->(d:Airport)\nWHERE j.actual_flown_miles >= $min_miles AND j.actual_flown_miles <= $max_miles\nRETURN DISTINCT o.station_code AS origin, d.station_code AS destination, f.flight_number, f.fleet_type_description, j.actual_flown_miles\nORDER BY j.actual_flown_miles DESC LIMIT 50"

def sn_minMiles : String := "MATCH (j:Journey)-[:ON]->(f:Flight)-[:DEPARTS_FROM]->(o:Airport)\nMATCH (f)-[:ARRIVES_AT]->(d:Airport)\nWHERE j.actual_flown_miles >= $min_miles\nRETURN DISTINCT o.station_code AS origin, d.station_code AS destination, f.flight_number, f.fleet_type_description, j.actual_flown_miles\nORDER BY j.actual_flown_miles DESC LIMIT 50"

def sn_maxMiles : String := "MATCH (j:Journey)-[:ON]->(f:Flight)-[:DEPARTS_FROM]->(o:Airport)\nMATCH (f)-[:ARRIVES_AT]->(d:Airport)\nWHERE j.actual_flown_miles <= $max_miles\nRETURN DISTINCT o.station_code AS origin, d.station_code AS destination, f.flight_number, f.fleet_type_description, j.actual_flown_miles\nORDER BY j.actual_flown_miles LIMIT 50"

def as_loyClass_minFood : String := "MATCH (p:Passenger)-[:TOOK]->(j:Journey)\nWHERE p.loyalty_program_level = $loyalty_tier AND j.passenger_class = $class AND j.food_satisfaction_score >= $min_food_satisfaction\nRETURN avg(j.food_satisfaction_score) AS average_rating, count(j) AS total_trips"

def as_loyClass : String := "MATCH (p:Passenger)-[:TOOK]->(j:Journey)\nWHERE p.loyalty_program_level = $loyalty_tier AND j.passenger_class = $class\nRETURN avg(j.food_satisfaction_score) AS average_rating, count(j) AS total_trips"

def as_genFleet : String := "MATCH (p:Passenger)-[:TOOK]->(j:Journey)-[:ON]->(f:Flight)\nWHERE p.generation = $generation AND f.fleet_type_description CONTAINS $fleet_type\nRETURN p.generation, f.fleet_type_description, avg(j.food_satisfaction_score) AS average_food_rating"

def as_gen_minMaxFood : String := "MATCH (p:Passenger)-[:TOOK]->(j:Journey)\nWHERE p.generation = $generation AND j.food_satisfaction_score >= $min_food_satisfaction AND j.food_satisfaction_score <= $max_food_satisfaction\nRETURN p.generation AS generation, j.food_satisfaction_score, count(j) AS count\nORDER BY j.food_satisfaction_score"

def as_gen : String := "MATCH (p:Passenger)-[:TOOK]->(j:Journey)\nWHERE p.generation = $generation\nRETURN p.generation AS generation, avg(j.food_satisfaction_score) AS average_food_rating"

def as_loy : String := "MATCH (p:Passenger)-[:TOOK]->(j:Journey)\nWHERE p.loyalty_program_level = $loyalty_tier\nRETURN p.loyalty_program_level AS loyalty_tier, avg(j.food_satisfaction_score) AS average_food_rating"

def as_minMaxFood : String := "MATCH (j:Journey)\nWHERE j.food_satisfaction_score >= $min_food_satisfaction AND j.food_satisfaction_score <= $max_food_satisfaction\nRETURN j.food_satisfaction_score AS score, count(j) AS journey_count\nORDER BY score"

def as_maxFood : String := "MATCH (p:Passenger)-[:TOOK]->(j:Journey)-[:ON]->(f:Flight)\nWHERE j.food_satisfaction_score <= $max_food_satisfaction\nRETURN f.flight_number, j.food_satisfaction_score, p.generation, j.feedback_ID\nORDER BY j.food_satisfaction_score LIMIT 50"

def as_fleet : String := "MATCH (j:Journey)-[:ON]->(f:Flight)\nWHERE f.fleet_type_description CONTAINS $fleet_type\nRETURN f.fleet_type_description AS aircraft_type, avg(j.food_satisfaction_score) AS average_food_rating, min(j.food_satisfaction_score) AS min_food_rating, max(j.food_satisfaction_score) AS max_food_rating, count(j) AS total_journeys"

def as_default : String := "MATCH (j:Journey) RETURN avg(j.food_satisfaction_score) as global_avg"

def ad_od_minDelay : String := "MATCH (j:Journey)-[:ON]->(f:Flight)-[:DEPARTS_FROM]->(o:Airport \x7bstation_code: $origin\x7d)\nMATCH (f)-[:ARRIVES_AT]->(d:Airport \x7bstation_code: $dest\x7d)\nWHERE j.arrival_delay_minutes >= $min_delay\nRETURN f.flight_number, f.fleet_type_description, j.arrival_delay_minutes, j.feedback_ID\nORDER BY j.arrival_delay_minutes DESC LIMIT 50"

def ad_od_maxDelay : String := "MATCH (j:Journey)-[:ON]->(f:Flight)-[:DEPARTS_FROM]->(o:Airport \x7bstation_code: $origin\x7d)\nMATCH (f)-[:ARRIVES_AT]->(d:Airport \x7bstation_code: $dest\x7d)\nWHERE j.arrival_delay_minutes <= $max_delay\nRETURN f.flight_number, f.fleet_type_description, j.arrival_delay_minutes, j.feedback_ID\nORDER BY j.arrival_delay_minutes LIMIT 50"

def ad_od : String := "MATCH (j:Journey)-[:ON]->(f:Flight)-[:DEPARTS_FROM]->(o:Airport \x7bstation_code: $origin\x7d)\nMATCH (f)-[:ARRIVES_AT]->(d:Airport \x7bstation_code: $dest\x7d)\nRETURN f.flight_number, min(j.arrival_delay_minutes) AS min_delay, max(j.arrival_delay_minutes) AS max_delay, avg(j.arrival_delay_minutes) AS avg_delay"

def ad_minMaxDelay : String := "MATCH (j:Journey)-[:ON]->(f:Flight)\nWHERE j.arrival_delay_minutes >= $min_delay AND j.arrival_delay_minutes <= $max_delay\nRETURN f.flight_number, f.fleet_type_description, j.arrival_delay_minutes, j.feedback_ID\nORDER BY j.arrival_delay_minutes DESC LIMIT 50"

def ad_minDelay : String := "MATCH (j:Journey)-[:ON]->(f:Flight)\nWHERE j.arrival_delay_minutes >= $min_delay\nRETURN f.flight_number, f.fleet_type_description, j.arrival_delay_minutes, j.feedback_ID\nORDER BY j.arrival_delay_minutes DESC LIMIT 50"

def ad_maxDelay : String := "MATCH (j:Journey)-[:ON]->(f:Flight)\nWHERE j.arrival_delay_minutes <= $max_delay\nRETURN f.flight_number, f.fleet_type_description, j.arrival_delay_minutes, j.feedback_ID\nORDER BY j.arrival_delay_minutes LIMIT 50"

def ad_o_minDelay : String := "MATCH (j:Journey)-[:ON]->(f:Flight)-[:DEPARTS_FROM]->(a:Airport \x7bstation_code: $origin\x7d)\nWHERE j.arrival_delay_minutes >= $min_delay\nRETURN f.flight_number, f.fleet_type_description, j.arrival_delay_minutes, j.feedback_ID, a.station_code AS origin\nORDER BY j.arrival_delay_minutes DESC LIMIT 50"

def ad_o_maxDelay : String := "MATCH (j:Journey)-[:ON]->(f:Flight)-[:DEPARTS_FROM]->(a:Airport \x7bstation_code: $origin\x7d)\nWHERE j.arrival_delay_minutes <= $max_delay\nRETURN f.flight_number, f.fleet_type_description, j.arrival_delay_minutes, j.feedback_ID, a.station_code AS origin\nORDER BY j.arrival_delay_minutes LIMIT 50"

def ad_o : String := "MATCH (j:Journey)-[:ON]->(f:Flight)-[:DEPARTS_FROM]->(a:Airport \x7bstation_code: $origin\x7d)\nRETURN a.station_code AS airport, min(j.arrival_delay_minutes) AS min_delay, max(j.arrival_delay_minutes) AS max_delay, avg(j.arrival_delay_minutes) AS avg_delay"

def ad_fleet : String := "MATCH (j:Journey)-[:ON]->(f:Flight)\nWHERE f.fleet_type_description CONTAINS $fleet_type\nRETURN f.fleet_type_description AS aircraft_type, min(j.arrival_delay_minutes) AS min_delay, max(j.arrival_delay_minutes) AS max_delay, avg(j.arrival_delay_minutes) AS average_delay"

def ad_maxLegs : String := "MATCH (j:Journey)-[:ON]->(f:Flight)\nWHERE j.number_of_legs <= $max_legs\nRETURN avg(j.arrival_delay_minutes) AS avg_delay, min(j.arrival_delay_minutes) AS min_delay, max(j.arrival_delay_minutes) AS max_delay, count(j) AS total_journeys, 'Direct Flights' AS flight_type"

def ad_default : String := "MATCH (j:Journey)-[:ON]->(f:Flight)\nRETURN f.fleet_type_description AS aircraft_type, avg(j.arrival_delay_minutes) AS average_delay\nORDER BY average_delay DESC LIMIT 50"

def ai_minDelay_maxFood : String := "MATCH (j:Journey)-[:ON]->(f:Flight)\nWHERE j.arrival_delay_minutes >= $min_delay AND j.food_satisfaction_score <= $max_food_satisfaction\nRETURN f.flight_number, j.arrival_delay_minutes, j.food_satisfaction_score, j.feedback_ID\nORDER BY j.arrival_delay_minutes DESC LIMIT 50"

def ai_minDelay_maxScore : String := "MATCH (j:Journey)-[:ON]->(f:Flight)\nWHERE j.arrival_delay_minutes > $min_delay AND j.food_satisfaction_score <= $max_score\nRETURN f.flight_number, j.arrival_delay_minutes, j.food_satisfaction_score, j.feedback_ID\nLIMIT 50"

def ai_od_minDelay : String := "MATCH (j:Journey)-[:ON]->(f:Flight)-[:DEPARTS_FROM]->(o:Airport \x7bstation_code: $origin\x7d)\nMATCH (f)-[:ARRIVES_AT]->(d:Airport \x7bstation_code: $dest\x7d)\nWHERE j.arrival_delay_minutes >= $min_delay\nRETURN f.flight_number, j.arrival_delay_minutes, j.food_satisfaction_score, j.feedback_ID, j.passenger_class\nORDER BY j.arrival_delay_minutes DESC LIMIT 50"

def ai_minLegs_minDelay : String := "MATCH (p:Passenger)-[:TOOK]->(j:Journey)-[:ON]->(f:Flight)\nWHERE j.number_of_legs >= $min_legs AND j.arrival_delay_minutes >= $min_delay\nRETURN p.record_locator, f.flight_number, j.number_of_legs, j.arrival_delay_minutes, j.feedback_ID\nORDER BY j.arrival_delay_minutes DESC LIMIT 50"

def ai_maxFood : String := "MATCH (j:Journey)-[:ON]->(f:Flight)\nWHERE j.food_satisfaction_score <= $max_food_satisfaction\nRETURN f.flight_number, j.arrival_delay_minutes, j.food_satisfaction_score, j.feedback_ID\nORDER BY j.food_satisfaction_score LIMIT 50"

def ld_record : String := "MATCH (p:Passenger \x7brecord_locator: $record_locator\x7d)-[:TOOK]->(j:Journey)-[:ON]->(f:Flight)\nRETURN \x7b passenger: properties(p), journey: properties(j), flight: properties(f) \x7d AS full_record"

def ld_feedback : String := "MATCH (j:Journey \x7bfeedback_ID: $feedback_id\x7d)\nOPTIONAL MATCH (p:Passenger)-[:TOOK]->(j)-[:ON]->(f:Flight)\nRETURN \x7b journey: properties(j), passenger: properties(p), flight_number: f.flight_number \x7d AS feedback_details"

def ap_genFleet : String := "MATCH (p:Passenger)-[:TOOK]->(j:Journey)-[:ON]->(f:Flight)\nWHERE p.generation = $generation AND f.fleet_type_description CONTAINS $fleet_type\nRETURN p.loyalty_program_level AS loyalty_tier, count(DISTINCT p) AS passenger_count, avg(j.food_satisfaction_score) AS avg_satisfaction, f.fleet_type_description AS fleet_type\nORDER BY passenger_count DESC"

def ap_gen_minDelay_minLegs : String := "MATCH (p:Passenger)-[:TOOK]->(j:Journey)-[:ON]->(f:Flight)\nWHERE p.generation = $generation AND j.arrival_delay_minutes >= $min_delay AND j.number_of_legs >= $min_legs\nRETURN p.record_locator, p.loyalty_program_level, j.arrival_delay_minutes, j.number_of_legs, j.food_satisfaction_score\nORDER BY j.arrival_delay_minutes DESC LIMIT 50"

def ap_gen_minDelay : String := "MATCH (p:Passenger)-[:TOOK]->(j:Journey)\nWHERE p.generation = $generation AND j.arrival_delay_minutes >= $min_delay\nRETURN p.record_locator, p.loyalty_program_level, count(j) AS delayed_journeys, avg(j.arrival_delay_minutes) AS avg_delay\nORDER BY delayed_journeys DESC LIMIT 50"

def ap_cls : String := "MATCH (p:Passenger)-[:TOOK]->(j:Journey)\nWHERE j.passenger_class = $class\nRETURN p.generation AS generation, p.loyalty_program_level AS loyalty_tier, count(DISTINCT p) AS passenger_count, avg(j.food_satisfaction_score) AS avg_satisfaction, avg(j.arrival_delay_minutes) AS avg_delay\nORDER BY passenger_count DESC"

def ap_loy_minMiles : String := "MATCH (p:Passenger)-[:TOOK]->(j:Journey)\nWHERE p.loyalty_program_level = $loyalty_tier AND j.actual_flown_miles >= $min_miles\nRETURN p.record_locator, p.loyalty_program_level, p.generation, count(j) AS total_journeys, sum(j.actual_flown_miles) AS total_miles\nORDER BY total_miles DESC LIMIT 50"

def ap_loy : String := "MATCH (p:Passenger)-[:TOOK]->(j:Journey)\nWHERE p.loyalty_program_level = $loyalty_tier\nRETURN p.record_locator, p.generation, count(j) AS journey_count, avg(j.food_satisfaction_score) AS avg_satisfaction\nORDER BY journey_count DESC LIMIT 50"

def ap_gen_loy : String := "MATCH (p:Passenger)-[:TOOK]->(j:Journey)\nWHERE p.generation = $generation AND p.loyalty_program_level = $loyalty_tier\nRETURN p.record_locator, count(j) AS journey_count, sum(j.actual_flown_miles) AS total_miles, avg(j.food_satisfaction_score) AS avg_satisfaction\nORDER BY total_miles DESC LIMIT 50"

def ap_gen_minMiles : String := "MATCH (p:Passenger)-[:TOOK]->(j:Journey)\nWHERE p.generation = $generation AND j.actual_flown_miles >= $min_miles\nRETURN p.record_locator, p.loyalty_program_level, count(j) AS total_journeys, sum(j.actual_flown_miles) AS total_miles\nORDER BY total_miles DESC LIMIT 50"

def ap_gen : String := "MATCH (p:Passenger)-[:TOOK]->(j:Journey)\nWHERE p.generation = $generation\nRETURN p.loyalty_program_level AS loyalty_tier, count(DISTINCT p) AS passenger_count, avg(j.food_satisfaction_score) AS avg_satisfaction\nORDER BY passenger_count DESC"

def ap_minDelay : String := "MATCH (p:Passenger)-[:TOOK]->(j:Journey)\nWHERE j.arrival_delay_minutes >= $min_delay\nRETURN p.record_locator, p.generation, p.loyalty_program_level, count(j) AS delayed_journeys, avg(j.arrival_delay_minutes) AS avg_delay\nORDER BY delayed_journeys DESC LIMIT 50"

def ap_default : String := "MATCH (p:Passenger)-[:TOOK]->(j:Journey)\nRETURN p.generation AS generation, p.loyalty_program_level AS loyalty_tier, count(DISTINCT p) AS passenger_count\nORDER BY passenger_count DESC"

def al_loy_gen : String := "MATCH (p:Passenger)-[:TOOK]->(j:Journey)\nWHERE p.loyalty_program_level = $loyalty_tier AND p.generation = $generation\nRETURN p.loyalty_program_level AS loyalty_tier, p.generation AS generation, count(DISTINCT p) AS passenger_count, avg(j.food_satisfaction_score) AS avg_food_satisfaction, avg(j.arrival_delay_minutes) AS avg_delay, avg(j.actual_flown_miles) AS avg_miles, avg(j.number_of_legs) AS avg_legs"

def al_loy : String := "MATCH (p:Passenger)-[:TOOK]->(j:Journey)\nWHERE p.loyalty_program_level = $loyalty_tier\nRETURN p.loyalty_program_level AS loyalty_tier, count(DISTINCT p) AS passenger_count, avg(j.food_satisfaction_score) AS avg_food_satisfaction, avg(j.arrival_delay_minutes) AS avg_delay, avg(j.actual_flown_miles) AS avg_miles, avg(j.number_of_legs) AS avg_legs"

def al_default : String := "MATCH (p:Passenger)-[:TOOK]->(j:Journey)\nRETURN p.loyalty_program_level AS loyalty_tier, count(DISTINCT p) AS passenger_count, avg(j.food_satisfaction_score) AS avg_food_satisfaction, avg(j.arrival_delay_minutes) AS avg_delay, avg(j.number_of_legs) AS avg_legs\nORDER BY passenger_count DESC"

def ae_loy_minFood_maxLegs : String := "MATCH (p:Passenger)-[:TOOK]->(j:Journey)-[:ON]->(f:Flight)\nWHERE p.loyalty_program_level = $loyalty_tier AND j.food_satisfaction_score >= $min_food_satisfaction AND j.number_of_legs <= $max_legs\nRETURN p.loyalty_program_level AS loyalty_tier, count(j) AS total_journeys, avg(j.food_satisfaction_score) AS avg_food_satisfaction, avg(j.arrival_delay_minutes) AS avg_delay_minutes, avg(j.actual_flown_miles) AS avg_miles, avg(j.number_of_legs) AS avg_legs"

def ae_loy_minFood : String := "MATCH (p:Passenger)-[:TOOK]->(j:Journey)-[:ON]->(f:Flight)\nWHERE p.loyalty_program_level = $loyalty_tier AND j.food_satisfaction_score >= $min_food_satisfaction\nRETURN p.loyalty_program_level AS loyalty_tier, count(j) AS total_journeys, avg(j.food_satisfaction_score) AS avg_food_satisfaction, avg(j.arrival_delay_minutes) AS avg_delay_minutes, avg(j.actual_flown_miles) AS avg_miles, avg(j.number_of_legs) AS avg_legs"

def ae_loy_maxLegs : String := "MATCH (p:Passenger)-[:TOOK]->(j:Journey)-[:ON]->(f:Flight)\nWHERE p.loyalty_program_level = $loyalty_tier AND j.number_of_legs <= $max_legs\nRETURN p.loyalty_program_level AS loyalty_tier, count(j) AS total_journeys, avg(j.food_satisfaction_score) AS avg_food_satisfaction, avg(j.arrival_delay_minutes) AS avg_delay_minutes, avg(j.actual_flown_miles) AS avg_miles, avg(j.number_of_legs) AS avg_legs"

def ae_loy : String := "MATCH (p:Passenger)-[:TOOK]->(j:Journey)-[:ON]->(f:Flight)\nWHERE p.loyalty_program_level = $loyalty_tier\nRETURN p.loyalty_program_level AS loyalty_tier, count(j) AS total_journeys, avg(j.food_satisfaction_score) AS avg_food_satisfaction, avg(j.arrival_delay_minutes) AS avg_delay_minutes, avg(j.actual_flown_miles) AS avg_miles, avg(j.number_of_legs) AS avg_legs"

def ae_gen : String := "MATCH (p:Passenger)-[:TOOK]->(j:Journey)-[:ON]->(f:Flight)\nWHERE p.generation = $generation\nRETURN p.generation AS generation, count(j) AS total_journeys, avg(j.food_satisfaction_score) AS avg_food_satisfaction, avg(j.arrival_delay_minutes) AS avg_delay_minutes, avg(j.actual_flown_miles) AS avg_miles"

def ae_cls : String := "MATCH (p:Passenger)-[:TOOK]->(j:Journey)\nWHERE j.passenger_class = $class\nRETURN j.passenger_class AS class, count(j) AS total_journeys, avg(j.food_satisfaction_score) AS avg_food_satisfaction, avg(j.arrival_delay_minutes) AS avg_delay_minutes, avg(j.actual_flown_miles) AS avg_miles"

def ae_default : String := "MATCH (p:Passenger)-[:TOOK]->(j:Journey)\nRETURN p.loyalty_program_level AS loyalty_tier, count(j) AS total_journeys, avg(j.food_satisfaction_score) AS avg_food_satisfaction, avg(j.arrival_delay_minutes) AS avg_delay_minutes, avg(j.actual_flown_miles) AS avg_miles\nORDER BY total_journeys DESC"

def aj_minMaxLegs : String := "MATCH (p:Passenger)-[:TOOK]->(j:Journey)-[:ON]->(f:Flight)\nWHERE j.number_of_legs >= $min_legs AND j.number_of_legs <= $max_legs\nRETURN j.feedback_ID, j.number_of_legs, j.actual_flown_miles, j.arrival_delay_minutes, j.food_satisfaction_score, p.record_locator, f.flight_number\nORDER BY j.number_of_legs DESC LIMIT 50"

def aj_minLegs : String := "MATCH (p:Passenger)-[:TOOK]->(j:Journey)-[:ON]->(f:Flight)\nWHERE j.number_of_legs >= $min_legs\nRETURN j.feedback_ID, j.number_of_legs, j.actual_flown_miles, j.arrival_delay_minutes, j.food_satisfaction_score, p.record_locator, f.flight_number\nORDER BY j.number_of_legs DESC LIMIT 50"

def aj_maxLegs : String := "MATCH (p:Passenger)-[:TOOK]->(j:Journey)-[:ON]->(f:Flight)\nWHERE j.number_of_legs <= $max_legs\nRETURN j.feedback_ID, j.number_of_legs, j.actual_flown_miles, j.arrival_delay_minutes, j.food_satisfaction_score, p.record_locator, f.flight_number\nORDER BY j.number_of_legs LIMIT 50"

def aj_minMaxMiles : String := "MATCH (p:Passenger)-[:TOOK]->(j:Journey)-[:ON]->(f:Flight)\nWHERE j.actual_flown_miles >= $min_miles AND j.actual_flown_miles <= $max_miles\nRETURN j.feedback_ID, j.actual_flown_miles, j.number_of_legs, j.food_satisfaction_score, f.fleet_type_description\nORDER BY j.actual_flown_miles DESC LIMIT 50"

def aj_minMiles : String := "MATCH (p:Passenger)-[:TOOK]->(j:Journey)-[:ON]->(f:Flight)\nWHERE j.actual_flown_miles >= $min_miles\nRETURN j.feedback_ID, j.actual_flown_miles, j.number_of_legs, j.food_satisfaction_score, p.generation, f.fleet_type_description\nORDER BY j.actual_flown_miles DESC LIMIT 50"

def aj_maxMiles : String := "MATCH (p:Passenger)-[:TOOK]->(j:Journey)-[:ON]->(f:Flight)\nWHERE j.actual_flown_miles <= $max_miles\nRETURN j.feedback_ID, j.actual_flown_miles, j.number_of_legs, j.food_satisfaction_score, p.generation, f.fleet_type_description\nORDER BY j.actual_flown_miles LIMIT 50"

def aj_cls : String := "MATCH (p:Passenger)-[:TOOK]->(j:Journey)\nWHERE j.passenger_class = $class\nRETURN j.passenger_class, count(j) AS journey_count, avg(j.food_satisfaction_score) AS avg_food_score, avg(j.arrival_delay_minutes) AS avg_delay"

def aj_default : String := "MATCH (j:Journey)\nRETURN j.passenger_class AS class, count(j) AS journey_count, avg(j.food_satisfaction_score) AS avg_satisfaction, avg(j.arrival_delay_minutes) AS avg_delay, avg(j.actual_flown_miles) AS avg_miles\nORDER BY journey_count DESC"

def cr_od : String := "MATCH (j:Journey)-[:ON]->(f:Flight)-[:DEPARTS_FROM]->(o:Airport \x7bstation_code: $origin\x7d)\nMATCH (f)-[:ARRIVES_AT]->(d:Airport \x7bstation_code: $dest\x7d)\nRETURN f.fleet_type_description AS aircraft, count(j) AS flight_count, avg(j.arrival_delay_minutes) AS avg_delay, avg(j.food_satisfaction_score) AS avg_food_score, avg(j.actual_flown_miles) AS avg_miles\nORDER BY flight_count DESC"

def cr_o : String := "MATCH (j:Journey)-[:ON]->(f:Flight)-[:DEPARTS_FROM]->(o:Airport \x7bstation_code: $origin\x7d)\nMATCH (f)-[:ARRIVES_AT]->(d:Airport)\nRETURN d.station_code AS destination, count(j) AS flight_count, avg(j.arrival_delay_minutes) AS avg_delay, avg(j.food_satisfaction_score) AS avg_food_score\nORDER BY flight_count DESC LIMIT 50"

end Q

/--
The if-cascade of `Neo4jRetriever._get_specific_query` (base_retrieve.py
lines 104-797).  In Python each intent block is a sequence of early-return
`if`s; such a chain is exactly a first-match scan over guard/template pairs,
which `firstMatch` performs.  The guards are listed in the source order; an
intent block that ends with an unconditional `return` carries a final `true`
guard, and a block that can fall through (search_network, analyze_issues,
lookup_details, compare_routes) reaches the final `return None`.
-/
def firstMatch : List (Bool × String) → Option String
  | [] => Option.none
  | (g, q) :: rest => if g then some q else firstMatch rest

def sn_table (e : Bag) : List (Bool × String) :=
  [(bagHasKey e "origin" && bagHasKey e "dest" && bagHasKey e "min_delay", Q.sn_od_minDelay),
   (bagHasKey e "origin" && bagHasKey e "dest" && bagHasKey e "max_delay", Q.sn_od_maxDelay),
   (bagHasKey e "origin" && bagHasKey e "dest" && bagHasKey e "min_miles" && bagHasKey e "max_miles", Q.sn_od_minMaxMiles),
   (bagHasKey e "origin" && bagHasKey e "dest" && bagHasKey e "min_miles", Q.sn_od_minMiles),
   (bagHasKey e "origin" && bagHasKey e "dest" && bagHasKey e "max_miles", Q.sn_od_maxMiles),
   (bagHasKey e "origin" && bagHasKey e "dest", Q.sn_od),
   (bagHasKey e "origin" && bagHasKey e "max_legs", Q.sn_o_maxLegs),
   (bagHasKey e "origin" && bagHasKey e "dest" && bagHasKey e "max_legs", Q.sn_od_maxLegs),
   (bagHasKey e "origin" && bagHasKey e "max_miles", Q.sn_o_maxMiles),
   (bagHasKey e "origin" && bagHasKey e "min_miles", Q.sn_o_minMiles),
   (bagHasKey e "origin", Q.sn_o),
   (bagHasKey e "dest", Q.sn_d),
   (bagHasKey e "min_miles" && bagHasKey e "max_miles", Q.sn_minMaxMiles),
   (bagHasKey e "min_miles", Q.sn_minMiles),
   (bagHasKey e "max_miles", Q.sn_maxMiles)]

def as_table (e : Bag) : List (Bool × String) :=
  [(bagHasKey e "loyalty_tier" && bagHasKey e "class" && bagHasKey e "min_food_satisfaction", Q.as_loyClass_minFood),
   (bagHasKey e "loyalty_tier" && bagHasKey e "class", Q.as_loyClass),
   (bagHasKey e "generation" && bagHasKey e "fleet_type", Q.as_genFleet),
   (bagHasKey e "generation" && bagHasKey e "min_food_satisfaction" && bagHasKey e "max_food_satisfaction", Q.as_gen_minMaxFood),
   (bagHasKey e "generation", Q.as_gen),
   (bagHasKey e "loyalty_tier", Q.as_loy),
   (bagHasKey e "min_food_satisfaction" && bagHasKey e "max_food_satisfaction", Q.as_minMaxFood),
   (bagHasKey e "max_food_satisfaction", Q.as_maxFood),
   (bagHasKey e "fleet_type", Q.as_fleet),
   (true, Q.as_default)]

def ad_table (e : Bag) : List (Bool × String) :=
  [(bagHasKey e "origin" && bagHasKey e "dest" && bagHasKey e "min_delay", Q.ad_od_minDelay),
   (bagHasKey e "origin" && bagHasKey e "dest" && bagHasKey e "max_delay", Q.ad_od_maxDelay),
   (bagHasKey e "origin" && bagHasKey e "dest", Q.ad_od),
   (bagHasKey e "min_delay" && bagHasKey e "max_delay", Q.ad_minMaxDelay),
   (bagHasKey e "min_delay", Q.ad_minDelay),
   (bagHasKey e "max_delay", Q.ad_maxDelay),
   (bagHasKey e "origin" && bagHasKey e "min_delay", Q.ad_o_minDelay),
   (bagHasKey e "origin" && bagHasKey e "max_delay", Q.ad_o_maxDelay),
   (bagHasKey e "origin", Q.ad_o),
   (bagHasKey e "fleet_type", Q.ad_fleet),
   (bagHasKey e "max_legs", Q.ad_maxLegs),
   (true, Q.ad_default)]

def ai_table (e : Bag) : List (Bool × String) :=
  [(bagHasKey e "min_delay" && bagHasKey e "max_food_satisfaction", Q.ai_minDelay_maxFood),
   (bagHasKey e "min_delay" && bagHasKey e "max_score", Q.ai_minDelay_maxScore),
   (bagHasKey e "origin" && bagHasKey e "dest" && bagHasKey e "min_delay", Q.ai_od_minDelay),
   (bagHasKey e "min_legs" && bagHasKey e "min_delay", Q.ai_minLegs_minDelay),
   (bagHasKey e "max_food_satisfaction", Q.ai_maxFood)]

def ld_table (e : Bag) : List (Bool × String) :=
  [(bagHasKey e "record_locator", Q.ld_record),
   (bagHasKey e "feedback_id", Q.ld_feedback)]

def ap_table (e : Bag) : List (Bool × String) :=
  [(bagHasKey e "generation" && bagHasKey e "fleet_type", Q.ap_genFleet),
   (bagHasKey e "generation" && bagHasKey e "min_delay" && bagHasKey e "min_legs", Q.ap_gen_minDelay_minLegs),
   (bagHasKey e "generation" && bagHasKey e "min_delay", Q.ap_gen_minDelay),
   (bagHasKey e "class", Q.ap_cls),
   (bagHasKey e "loyalty_tier" && bagHasKey e "min_miles", Q.ap_loy_minMiles),
   (bagHasKey e "loyalty_tier", Q.ap_loy),
   (bagHasKey e "generation" && bagHasKey e "loyalty_tier", Q.ap_gen_loy),
   (bagHasKey e "generation" && bagHasKey e "min_miles", Q.ap_gen_minMiles),
   (bagHasKey e "generation", Q.ap_gen),
   (bagHasKey e "min_delay", Q.ap_minDelay),
   (true, Q.ap_default)]

def al_table (e : Bag) : List (Bool × String) :=
  [(bagHasKey e "loyalty_tier" && bagHasKey e "generation", Q.al_loy_gen),
   (bagHasKey e "loyalty_tier", Q.al_loy),
   (true, Q.al_default)]

def ae_table (e : Bag) : List (Bool × String) :=
  [(bagHasKey e "loyalty_tier" && bagHasKey e "min_food_satisfaction" && bagHasKey e "max_legs", Q.ae_loy_minFood_maxLegs),
   (bagHasKey e "loyalty_tier" && bagHasKey e "min_food_satisfaction", Q.ae_loy_minFood),
   (bagHasKey e "loyalty_tier" && bagHasKey e "max_legs", Q.ae_loy_maxLegs),
   (bagHasKey e "loyalty_tier", Q.ae_loy),
   (bagHasKey e "generation", Q.ae_gen),
   (bagHasKey e "class", Q.ae_cls),
   (true, Q.ae_default)]

def aj_table (e : Bag) : List (Bool × String) :=
  [(bagHasKey e "min_legs" && bagHasKey e "max_legs", Q.aj_minMaxLegs),
   (bagHasKey e "min_legs", Q.aj_minLegs),
   (bagHasKey e "max_legs", Q.aj_maxLegs),
   (bagHasKey e "min_miles" && bagHasKey e "max_miles", Q.aj_minMaxMiles),
   (bagHasKey e "min_miles", Q.aj_minMiles),
   (bagHasKey e "max_miles", Q.aj_maxMiles),
   (bagHasKey e "class", Q.aj_cls),
   (true, Q.aj_default)]

def cr_table (e : Bag) : List (Bool × String) :=
  [(bagHasKey e "origin" && bagHasKey e "dest", Q.cr_od),
   (bagHasKey e "origin", Q.cr_o)]

def _get_specific_query (intent : String) (e : Bag) : Option String :=
  if intent = "search_network" then firstMatch (sn_table e)
  else if intent = "analyze_satisfaction" then firstMatch (as_table e)
  else if intent = "analyze_delays" then firstMatch (ad_table e)
  else if intent = "analyze_issues" then firstMatch (ai_table e)
  else if intent = "lookup_details" then firstMatch (ld_table e)
  else if intent = "analyze_passengers" then firstMatch (ap_table e)
  else if intent = "analyze_loyalty" then firstMatch (al_table e)
  else if intent = "analyze_experience" then firstMatch (ae_table e)
  else if intent = "analyze_journeys" then firstMatch (aj_table e)
  else if intent = "compare_routes" then firstMatch (cr_table e)
  else Option.none

/-- The complete list of canned templates (used to reason uniformly about
whatever `_get_specific_query` can return). -/
def allTemplates : List String :=
  [Q.sn_od_minDelay, Q.sn_od_maxDelay, Q.sn_od_minMaxMiles, Q.sn_od_minMiles,
   Q.sn_od_maxMiles, Q.sn_od, Q.sn_o_maxLegs, Q.sn_od_maxLegs, Q.sn_o_maxMiles,
   Q.sn_o_minMiles, Q.sn_o, Q.sn_d, Q.sn_minMaxMiles, Q.sn_minMiles, Q.sn_maxMiles,
   Q.as_loyClass_minFood, Q.as_loyClass, Q.as_genFleet, Q.as_gen_minMaxFood,
   Q.as_gen, Q.as_loy, Q.as_minMaxFood, Q.as_maxFood, Q.as_fleet, Q.as_default,
   Q.ad_od_minDelay, Q.ad_od_maxDelay, Q.ad_od, Q.ad_minMaxDelay, Q.ad_minDelay,
   Q.ad_maxDelay, Q.ad_o_minDelay, Q.ad_o_maxDelay, Q.ad_o, Q.ad_fleet,
   Q.ad_maxLegs, Q.ad_default, Q.ai_minDelay_maxFood, Q.ai_minDelay_maxScore,
   Q.ai_od_minDelay, Q.ai_minLegs_minDelay, Q.ai_maxFood, Q.ld_record,
   Q.ld_feedback, Q.ap_genFleet, Q.ap_gen_minDelay_minLegs, Q.ap_gen_minDelay,
   Q.ap_cls, Q.ap_loy_minMiles, Q.ap_loy, Q.ap_gen_loy, Q.ap_gen_minMiles,
   Q.ap_gen, Q.ap_minDelay, Q.ap_default, Q.al_loy_gen, Q.al_loy, Q.al_default,
   Q.ae_loy_minFood_maxLegs, Q.ae_loy_minFood, Q.ae_loy_maxLegs, Q.ae_loy,
   Q.ae_gen, Q.ae_cls, Q.ae_default, Q.aj_minMaxLegs, Q.aj_minLegs, Q.aj_maxLegs,
   Q.aj_minMaxMiles, Q.aj_minMiles, Q.aj_maxMiles, Q.aj_cls, Q.aj_default,
   Q.cr_od, Q.cr_o]

/-! Per-intent template lists (the right projections of the guarded tables,
used to reason about what `_get_specific_query` can return). -/

def snQs : List String :=
  [Q.sn_od_minDelay, Q.sn_od_maxDelay, Q.sn_od_minMaxMiles, Q.sn_od_minMiles,
   Q.sn_od_maxMiles, Q.sn_od, Q.sn_o_maxLegs, Q.sn_od_maxLegs, Q.sn_o_maxMiles,
   Q.sn_o_minMiles, Q.sn_o, Q.sn_d, Q.sn_minMaxMiles, Q.sn_minMiles, Q.sn_maxMiles]

def asQs : List String :=
  [Q.as_loyClass_minFood, Q.as_loyClass, Q.as_genFleet, Q.as_gen_minMaxFood,
   Q.as_gen, Q.as_loy, Q.as_minMaxFood, Q.as_maxFood, Q.as_fleet, Q.as_default]

def adQs : List String :=
  [Q.ad_od_minDelay, Q.ad_od_maxDelay, Q.ad_od, Q.ad_minMaxDelay, Q.ad_minDelay,
   Q.ad_maxDelay, Q.ad_o_minDelay, Q.ad_o_maxDelay, Q.ad_o, Q.ad_fleet,
   Q.ad_maxLegs, Q.ad_default]

def aiQs : List String :=
  [Q.ai_minDelay_maxFood, Q.ai_minDelay_maxScore, Q.ai_od_minDelay,
   Q.ai_minLegs_minDelay, Q.ai_maxFood]

def ldQs : List String := [Q.ld_record, Q.ld_feedback]

def apQs : List String :=
  [Q.ap_genFleet, Q.ap_gen_minDelay_minLegs, Q.ap_gen_minDelay, Q.ap_cls,
   Q.ap_loy_minMiles, Q.ap_loy, Q.ap_gen_loy, Q.ap_gen_minMiles, Q.ap_gen,
   Q.ap_minDelay, Q.ap_default]

def alQs : List String := [Q.al_loy_gen, Q.al_loy, Q.al_default]

def aeQs : List String :=
  [Q.ae_loy_minFood_maxLegs, Q.ae_loy_minFood, Q.ae_loy_maxLegs, Q.ae_loy,
   Q.ae_gen, Q.ae_cls, Q.ae_default]

def ajQs : List String :=
  [Q.aj_minMaxLegs, Q.aj_minLegs, Q.aj_maxLegs, Q.aj_minMaxMiles, Q.aj_minMiles,
   Q.aj_maxMiles, Q.aj_cls, Q.aj_default]

def crQs : List String := [Q.cr_od, Q.cr_o]

/-- The fixed key vocabulary `key_entities` of `get_query_for_intent`
(base_retrieve.py lines 82-84). -/
def key_entities : List String :=
  ["generation", "loyalty_tier", "fleet_type", "origin", "dest", "class",
   "min_delay", "max_delay", "min_miles", "max_miles", "min_legs", "max_legs",
   "min_food_satisfaction", "max_food_satisfaction"]

/-!
### `Neo4jRetriever._build_fallback_query` (base_retrieve.py lines 799-887)

The Python function mutates three lists; the definitions below build the same
lists functionally, with the clauses in the same order.  (The local
`group_by` list of the Python code is also built but never read, so it is
not modelled.)
-/

def fb_hasPass (e : Bag) : Bool := bagHasKey e "generation" || bagHasKey e "loyalty_tier"

def fb_hasFlight (e : Bag) : Bool := bagHasKey e "fleet_type" || bagHasKey e "origin" || bagHasKey e "dest"

/-- The single structural MATCH clause `match_clauses[0]`, after both
rewrites.  The flight rewrite tests `'p:Passenger' in match_clauses[0]`
exactly as the Python does. -/
def fb_head (e : Bag) : String :=
  let m0 := if fb_hasPass e then "MATCH (p:Passenger)-[:TOOK]->(j:Journey)" else "MATCH (j:Journey)"
  if fb_hasFlight e then
    if containsSub m0 "p:Passenger" then "MATCH (p:Passenger)-[:TOOK]->(j:Journey)-[:ON]->(f:Flight)"
    else "MATCH (j:Journey)-[:ON]->(f:Flight)"
  else m0

def fb_originClause : String := "MATCH (f)-[:DEPARTS_FROM]->(o:Airport \x7bstation_code: $origin\x7d)"

def fb_destClause : String := "MATCH (f)-[:ARRIVES_AT]->(d:Airport \x7bstation_code: $dest\x7d)"

def fb_match_clauses (e : Bag) : List String :=
  [fb_head e]
  ++ (if fb_hasFlight e then
        (if bagHasKey e "origin" then [fb_originClause] else [])
        ++ (if bagHasKey e "dest" then [fb_destClause] else [])
      else [])

def fb_where_clauses (e : Bag) : List String :=
  (if fb_hasPass e then
     (if bagHasKey e "generation" then ["p.generation = $generation"] else [])
     ++ (if bagHasKey e "loyalty_tier" then ["p.loyalty_program_level = $loyalty_tier"] else [])
   else [])
  ++ (if fb_hasFlight e then
        (if bagHasKey e "fleet_type" then ["f.fleet_type_description CONTAINS $fleet_type"] else [])
      else [])
  ++ (if bagHasKey e "class" then ["j.passenger_class = $class"] else [])
  ++ (if bagHasKey e "min_delay" then ["j.arrival_delay_minutes >= $min_delay"] else [])
  ++ (if bagHasKey e "max_delay" then ["j.arrival_delay_minutes <= $max_delay"] else [])
  ++ (if bagHasKey e "min_food_satisfaction" then ["j.food_satisfaction_score >= $min_food_satisfaction"] else [])
  ++ (if bagHasKey e "max_food_satisfaction" then ["j.food_satisfaction_score <= $max_food_satisfaction"] else [])
  ++ (if bagHasKey e "min_miles" then ["j.actual_flown_miles >= $min_miles"] else [])
  ++ (if bagHasKey e "max_miles" then ["j.actual_flown_miles <= $max_miles"] else [])
  ++ (if bagHasKey e "min_legs" then ["j.number_of_legs >= $min_legs"] else [])
  ++ (if bagHasKey e "max_legs" then ["j.number_of_legs <= $max_legs"] else [])

/-- The RETURN fields: the Python starts from the three base aggregates,
inserts the grouping fields at position 0 one by one (so they end up in
reverse insertion order), and appends the optional averages at the end.
The successive states of the Python `return_fields` list are named
`fb_rf_base` / `fb_rf_pass` / `fb_rf_flight` / `fb_return_fields`. -/
def fb_rf_base : List String :=
  ["count(j) AS journey_count",
   "avg(j.food_satisfaction_score) AS avg_food_satisfaction",
   "avg(j.arrival_delay_minutes) AS avg_delay"]

def fb_rf_pass (e : Bag) : List String :=
  if fb_hasPass e then
    (if bagHasKey e "loyalty_tier" then ["p.loyalty_program_level AS loyalty_tier"] else [])
    ++ (if bagHasKey e "generation" then ["p.generation AS generation"] else [])
    ++ fb_rf_base
  else fb_rf_base

def fb_rf_flight (e : Bag) : List String :=
  if fb_hasFlight e then
    (if bagHasKey e "dest" then ["d.station_code AS destination"] else [])
    ++ (if bagHasKey e "origin" then ["o.station_code AS origin"] else [])
    ++ (if bagHasKey e "fleet_type" then ["f.fleet_type_description AS fleet_type"] else [])
    ++ fb_rf_pass e
  else fb_rf_pass e

def fb_return_fields (e : Bag) : List String :=
  ((if bagHasKey e "class" then ["j.passenger_class AS class"] else []) ++ fb_rf_flight e)
  ++ (if bagHasKey e "min_miles" || bagHasKey e "max_miles" then ["avg(j.actual_flown_miles) AS avg_miles"] else [])
  ++ (if bagHasKey e "min_legs" || bagHasKey e "max_legs" then ["avg(j.number_of_legs) AS avg_legs"] else [])

/-- The keys for which the fallback emits a WHERE clause (the remaining two
recognized keys, `origin` and `dest`, get endpoint MATCH clauses). -/
def fb_where_keys : List String :=
  ["generation", "loyalty_tier", "fleet_type", "class", "min_delay", "max_delay",
   "min_food_satisfaction", "max_food_satisfaction", "min_miles", "max_miles",
   "min_legs", "max_legs"]

/-- Every RETURN field the fallback can emit. -/
def fb_rf_lits : List String :=
  ["count(j) AS journey_count", "avg(j.food_satisfaction_score) AS avg_food_satisfaction",
   "avg(j.arrival_delay_minutes) AS avg_delay", "p.loyalty_program_level AS loyalty_tier",
   "p.generation AS generation", "d.station_code AS destination", "o.station_code AS origin",
   "f.fleet_type_description AS fleet_type", "j.passenger_class AS class",
   "avg(j.actual_flown_miles) AS avg_miles", "avg(j.number_of_legs) AS avg_legs"]

def fb_query_parts (e : Bag) : List String :=
  [joinWithStr "\n" (fb_match_clauses e)]
  ++ (if (fb_where_clauses e).isEmpty then []
      else ["WHERE " ++ joinWithStr " AND " (fb_where_clauses e)])
  ++ ["RETURN " ++ joinWithStr ", " (fb_return_fields e),
      "ORDER BY journey_count DESC LIMIT 50"]

def _build_fallback_query (e : Bag) : String := joinWithStr "\n" (fb_query_parts e)

/-- `Neo4jRetriever.get_query_for_intent` (base_retrieve.py lines 70-102).
The Python compares the set `detected_keys` with `used_entities`; since
`used_entities` is always a subset of `detected_keys`, comparing the
filtered lists is the same test. -/
def get_query_for_intent (intent : String) (entities : Bag) : String :=
  match _get_specific_query intent entities with
  | some specific_query =>
    let detected_keys := key_entities.filter (fun k => bagHasKey entities k)
    let used_entities := detected_keys.filter
      (fun k => containsSub specific_query ("$" ++ k) || containsSub specific_query ("$_" ++ k))
    if detected_keys = used_entities || detected_keys.isEmpty then specific_query
    else _build_fallback_query entities
  | Option.none => _build_fallback_query entities

/-!
### Result serialization and `Neo4jRetriever.run_query`
(base_retrieve.py lines 889-933)
-/

/-- A store-side value in a result record.  `node` is a store-native wrapper
(neo4j Node/Relationship: it exposes a callable `.items()`), `dict` is a
plain Python dict (which also exposes `.items()`), `prim` is any scalar. -/
inductive Val where
  | prim : String → Val
  | node : List (String × Val) → Val
  | dict : List (String × Val) → Val

/-- One column of the serialization loop: values exposing `.items()` are
converted by `dict(value.items())` — a one-level conversion whose inner
values are taken over as they are — and all other values pass through. -/
def serializeValue : Val → Val
  | Val.node ps => Val.dict ps
  | Val.dict ps => Val.dict ps
  | v => v

abbrev Row := List (String × Val)

def serializeRow (r : Row) : Row := r.map (fun p => (p.1, serializeValue p.2))

def serializeResults (rows : List Row) : List Row := rows.map serializeRow

/-- Is the value itself a store-native wrapper? -/
def isTopNode : Val → Bool
  | Val.node _ => true
  | _ => false

mutual
/-- Does a store-native wrapper occur anywhere in the value, at any depth? -/
def hasNodeDeep : Val → Bool
  | Val.prim _ => false
  | Val.node _ => true
  | Val.dict ps => hasNodeDeepL ps

def hasNodeDeepL : List (String × Val) → Bool
  | [] => false
  | p :: rest => hasNodeDeep p.2 || hasNodeDeepL rest
end

def hasNodeDeepRow (r : Row) : Bool := r.any (fun p => hasNodeDeep p.2)

def hasNodeDeepResults (rows : List Row) : Bool := rows.any hasNodeDeepRow

/-- Outcome of `run_query`: the Python function returns either
`(serialized_results, cypher_query)` or an error-string pair. -/
inductive RunResult where
  | rows : List Row → String → RunResult
  | constructError : String → RunResult
  | driverError : RunResult
  | dbError : String → RunResult
deriving Inhabited

def RunResult.isConstructError : RunResult → Bool
  | RunResult.constructError _ => true
  | _ => false

/-- Python `{k: v for k, v in d.items() if v is not None}`. -/
def dropNulls (b : Bag) : Bag := b.filter (fun p => p.2 ≠ Value.null)

/-- The body of `Neo4jRetriever.run_query` after normalization, which is
total: query construction, the falsiness test, the driver check, and store
execution (the store is abstracted as a function from (query, parameters)
to either records or a database error, standing for the `try`/`except`).
The second component collects the queries actually sent to the store, so
that store calls can be counted. -/
def run_query_exec :
    Option (String → Bag → Except String (List Row)) → String → Bag →
      RunResult × List String
  | Option.none, _, _ => (RunResult.driverError, [])
  | some exec, q, cp =>
    match exec q cp with
    | .ok records => (RunResult.rows (serializeResults records) q, [q])
    | .error e => (RunResult.dbError e, [q])

def run_query_core (driver : Option (String → Bag → Except String (List Row)))
    (intent : String) (clean_params : Bag) : RunResult × List String :=
  let cypher_query := get_query_for_intent intent clean_params
  if cypher_query = "" then (RunResult.constructError intent, [])
  else run_query_exec driver cypher_query clean_params

/-- `Neo4jRetriever.run_query` (base_retrieve.py lines 889-933): normalize
(outside the `try`, so its exceptions propagate), drop `None` values, then
run the total core. -/
def run_query (driver : Option (String → Bag → Except String (List Row)))
    (intent : String) (entities : Bag) :
    Except PyErr (RunResult × List String) :=
  match normalize_entities entities with
  | .error e => .error e
  | .ok clean => .ok (run_query_core driver intent (dropNulls clean))

/-- `Neo4jRetriever.get_available_intents` (base_retrieve.py lines 15-27). -/
def get_available_intents : List String :=
  ["analyze_delays", "analyze_satisfaction", "search_network", "analyze_issues",
   "lookup_details", "analyze_passengers", "analyze_journeys", "compare_routes",
   "analyze_loyalty", "analyze_experience"]

/-!
### `preprocessing.py`: the semantic lexicon and parameter inference

`SEMANTIC_THRESHOLDS` (preprocessing.py lines 20-55) is a nested dict; dict
subscription on a missing key raises `KeyError`, which `stGet` reproduces.
-/

def SEMANTIC_THRESHOLDS : List (String × List (String × List (String × Int))) :=
  [("delay",
    [("early", [("max_delay", 0)]),
     ("on_time", [("min_delay", -15), ("max_delay", 15)]),
     ("slight", [("min_delay", 1), ("max_delay", 15)]),
     ("moderate", [("min_delay", 16), ("max_delay", 60)]),
     ("severe", [("min_delay", 61)]),
     ("extreme", [("min_delay", 120)])]),
   ("food_satisfaction",
    [("poor", [("max_food_satisfaction", 2)]),
     ("bad", [("max_food_satisfaction", 2)]),
     ("low", [("max_food_satisfaction", 2)]),
     ("mid", [("min_food_satisfaction", 3), ("max_food_satisfaction", 3)]),
     ("good", [("min_food_satisfaction", 4)]),
     ("excellent", [("min_food_satisfaction", 5)]),
     ("high", [("min_food_satisfaction", 4)])]),
   ("distance",
    [("short", [("max_miles", 1000)]),
     ("short-haul", [("max_miles", 1000)]),
     ("medium", [("min_miles", 1000), ("max_miles", 4000)]),
     ("medium-haul", [("min_miles", 1000), ("max_miles", 4000)]),
     ("long", [("min_miles", 4000)]),
     ("long-haul", [("min_miles", 4000)])]),
   ("legs",
    [("direct", [("max_legs", 1)]),
     ("nonstop", [("max_legs", 1)]),
     ("single", [("max_legs", 1)]),
     ("connecting", [("min_legs", 2)]),
     ("multi-leg", [("min_legs", 2)]),
     ("multi", [("min_legs", 2)]),
     ("complex", [("min_legs", 3)])])]

/-- Python dict subscription `d[k]`: `KeyError` on a missing key. -/
def stGet {α : Type} (d : List (String × α)) (k : String) : Except PyErr α :=
  match d.find? (fun p => p.1 = k) with
  | some p => .ok p.2
  | Option.none => .error (PyErr.keyError k)

/-- Python `parameters.update(m)` for an all-integer dict `m`. -/
def bagUpdateInts (b : Bag) (m : List (String × Int)) : Bag :=
  m.foldl (fun acc kv => bagSet acc kv.1 (Value.intV kv.2)) b

/-- Python `any(word in input_lower for word in ws)`. -/
def anyIn (input_lower : String) (ws : List String) : Bool :=
  ws.any (fun w => containsSub input_lower w)

/-- `QueryPreprocessor.infer_semantic_parameters` (preprocessing.py lines
365-413).  Every dict subscription of `SEMANTIC_THRESHOLDS` is performed
through `stGet`, so a missing key surfaces as a `KeyError` exactly where the
Python raises. -/
def infer_semantic_parameters (u : String) : Except PyErr Bag := do
  let input_lower := lowerStr u
  let parameters : Bag := []
  -- Delay inference
  let parameters ←
    if anyIn input_lower ["severe", "severely", "severly", "major delay", "significant", "big delay", "huge delay"] then do
      let d ← stGet SEMANTIC_THRESHOLDS "delay"
      let lvl ← stGet d "severe"
      let v ← stGet lvl "min_delay"
      pure (bagSet parameters "min_delay" (Value.intV v))
    else if anyIn input_lower ["extreme", "very delayed", "massive", "extremely"] then do
      let d ← stGet SEMANTIC_THRESHOLDS "delay"
      let lvl ← stGet d "extreme"
      let v ← stGet lvl "min_delay"
      pure (bagSet parameters "min_delay" (Value.intV v))
    else if anyIn input_lower ["moderate", "moderately"] then do
      let d ← stGet SEMANTIC_THRESHOLDS "delay"
      let lvl ← stGet d "moderate"
      pure (bagUpdateInts parameters lvl)
    else if anyIn input_lower ["slight", "minor", "small delay", "little delay"] then do
      let d ← stGet SEMANTIC_THRESHOLDS "delay"
      let lvl ← stGet d "slight"
      pure (bagUpdateInts parameters lvl)
    else if anyIn input_lower ["on time", "punctual", "no delay"] then do
      let d ← stGet SEMANTIC_THRESHOLDS "delay"
      let lvl ← stGet d "on_time"
      pure (bagUpdateInts parameters lvl)
    else if containsSub input_lower "early" && !containsSub input_lower "delay" then
      pure (bagSet parameters "max_delay" (Value.intV 0))
    else pure parameters
  -- Food satisfaction inference
  let parameters ←
    if anyIn input_lower ["poor rating", "poor food", "bad rating", "bad food", "low satisfaction", "terrible"] then do
      let d ← stGet SEMANTIC_THRESHOLDS "food_satisfaction"
      let lvl ← stGet d "poor"
      let v ← stGet lvl "max_food_satisfaction"
      pure (bagSet parameters "max_food_satisfaction" (Value.intV v))
    else if anyIn input_lower ["excellent rating", "excellent food", "great food", "high satisfaction"] then do
      let d ← stGet SEMANTIC_THRESHOLDS "food_satisfaction"
      let lvl ← stGet d "excellent"
      let v ← stGet lvl "min_food_satisfaction"
      pure (bagSet parameters "min_food_satisfaction" (Value.intV v))
    else if anyIn input_lower ["good rating", "good food"] then do
      let d ← stGet SEMANTIC_THRESHOLDS "food_satisfaction"
      let lvl ← stGet d "good"
      let v ← stGet lvl "min_food_satisfaction"
      pure (bagSet parameters "min_food_satisfaction" (Value.intV v))
    else if anyIn input_lower ["average rating", "average food", "okay food"] then do
      let d ← stGet SEMANTIC_THRESHOLDS "food_satisfaction"
      let lvl ← stGet d "average"
      pure (bagUpdateInts parameters lvl)
    else pure parameters
  -- Distance inference
  let parameters ←
    if anyIn input_lower ["short-haul", "short haul", "short flight", "short distance"] then do
      let d ← stGet SEMANTIC_THRESHOLDS "distance"
      let lvl ← stGet d "short"
      let v ← stGet lvl "max_miles"
      pure (bagSet parameters "max_miles" (Value.intV v))
    else if anyIn input_lower ["long-haul", "long haul", "long flight", "long distance"] then do
      let d ← stGet SEMANTIC_THRESHOLDS "distance"
      let lvl ← stGet d "long"
      let v ← stGet lvl "min_miles"
      pure (bagSet parameters "min_miles" (Value.intV v))
    else if anyIn input_lower ["medium-haul", "medium haul", "medium distance"] then do
      let d ← stGet SEMANTIC_THRESHOLDS "distance"
      let lvl ← stGet d "medium"
      pure (bagUpdateInts parameters lvl)
    else pure parameters
  -- Legs inference
  let parameters ←
    if anyIn input_lower ["direct flight", "direct flights", "nonstop", "non-stop", "non stop", "single leg"] then do
      let d ← stGet SEMANTIC_THRESHOLDS "legs"
      let lvl ← stGet d "direct"
      let v ← stGet lvl "max_legs"
      pure (bagSet parameters "max_legs" (Value.intV v))
    else if anyIn input_lower ["connecting flight", "multi-leg", "multi leg", "with connection", "with stop"] then do
      let d ← stGet SEMANTIC_THRESHOLDS "legs"
      let lvl ← stGet d "connecting"
      let v ← stGet lvl "min_legs"
      pure (bagSet parameters "min_legs" (Value.intV v))
    else if anyIn input_lower ["complex journey", "multiple stops", "many legs"] then do
      let d ← stGet SEMANTIC_THRESHOLDS "legs"
      let lvl ← stGet d "complex"
      let v ← stGet lvl "min_legs"
      pure (bagSet parameters "min_legs" (Value.intV v))
    else pure parameters
  pure parameters

/-!
### A small regular-expression engine for the `re.search` calls of
`QueryPreprocessor.extract_parameters_from_text` (preprocessing.py lines
291-362)

The engine implements Python `re.search` semantics for exactly the
constructs those patterns use: case-insensitive literals, ordered
alternation, greedy `\s*`, lazy `.*?` (not matching a newline), greedy
optional groups, and greedy counted digit captures.  `re.search` scans start
positions left to right and returns the first match, with left-to-right
alternative preference, lazy-minimal and greedy-maximal expansion.
-/

inductive Re where
  | lit : String → Re
  | alt : List Re → Re
  | seq : List Re → Re
  | opt : Re → Re
  | wsStar : Re
  | dotsLazy : Re
  | digits : Nat → Nat → Nat → Re  -- capture-group index, min count, max count (0 = unbounded)

/-- Captured groups: (group index, numeric value of the captured digits). -/
abbrev Groups := List (Nat × Nat)

abbrev ReCont := List Char → Groups → Option Groups

/-- Case-insensitive literal match; returns the remaining input. -/
def litMatch : List Char → List Char → Option (List Char)
  | [], cs => some cs
  | _ :: _, [] => Option.none
  | p :: ps, c :: cs => if Char.toLower c = Char.toLower p then litMatch ps cs else Option.none

def countLeadingWs : List Char → Nat
  | [] => 0
  | c :: rest => if c = ' ' || c = '\t' || c = '\n' || c = '\r' then countLeadingWs rest + 1 else 0

def countLeadingDigits : List Char → Nat
  | [] => 0
  | c :: rest => if c.isDigit then countLeadingDigits rest + 1 else 0

def digitsVal (cs : List Char) : Nat :=
  cs.foldl (fun acc c => acc * 10 + (c.toNat - 48)) 0

/-- Greedy `\s*`: try the continuation on the longest whitespace run first,
backing off one character at a time. -/
def wsTry (k : ReCont) (cs : List Char) (g : Groups) : Nat → Option Groups
  | 0 => k cs g
  | n + 1 =>
    match k (cs.drop (n + 1)) g with
    | some r => some r
    | Option.none => wsTry k cs g n

/-- Greedy counted digit capture: try the longest digit run first, down to
the minimum count. -/
def digTry (k : ReCont) (cs : List Char) (g : Groups) (grp lo : Nat) : Nat → Option Groups
  | 0 => Option.none
  | t + 1 =>
    if t + 1 < lo then Option.none
    else
      match k (cs.drop (t + 1)) ((grp, digitsVal (cs.take (t + 1))) :: g) with
      | some r => some r
      | Option.none => digTry k cs g grp lo t

/-- The matcher.  The fuel only bounds the nesting depth of the search (it
decreases on every recursive call); `reSearch` supplies far more fuel than
any of the fixed patterns can consume on its input. -/
def mre : Nat → Re → List Char → Groups → ReCont → Option Groups
  | 0, _, _, _, _ => Option.none
  | fuel + 1, r, cs, g, k =>
    match r with
    | Re.lit s =>
      match litMatch s.data cs with
      | some rest => k rest g
      | Option.none => Option.none
    | Re.alt [] => Option.none
    | Re.alt (r1 :: rest) =>
      match mre fuel r1 cs g k with
      | some res => some res
      | Option.none => mre fuel (Re.alt rest) cs g k
    | Re.seq [] => k cs g
    | Re.seq (r1 :: rest) =>
      mre fuel r1 cs g (fun cs' g' => mre fuel (Re.seq rest) cs' g' k)
    | Re.opt r1 =>
      match mre fuel r1 cs g k with
      | some res => some res
      | Option.none => k cs g
    | Re.wsStar => wsTry k cs g (countLeadingWs cs)
    | Re.dotsLazy =>
      match k cs g with
      | some res => some res
      | Option.none =>
        match cs with
        | [] => Option.none
        | c :: rest => if c = '\n' then Option.none else mre fuel Re.dotsLazy rest g k
    | Re.digits grp lo hi =>
      let dn := countLeadingDigits cs
      let maxTake := if hi = 0 then dn else min dn hi
      digTry k cs g grp lo maxTake

/-- Scan start positions left to right, as `re.search` does. -/
def searchFrom (r : Re) (fuel : Nat) : List Char → Option Groups
  | [] => mre fuel r [] [] (fun _ g => some g)
  | c :: rest =>
    match mre fuel r (c :: rest) [] (fun _ g => some g) with
    | some g => some g
    | Option.none => searchFrom r fuel rest

/-- Python `re.search(pattern, s, re.IGNORECASE)`, returning the captured
groups of the first match (or `none`). -/
def reSearch (r : Re) (s : String) : Option Groups :=
  searchFrom r (50 * (s.length + 20)) s.data

/-- Read group `i` of a match (the patterns below always bind the groups
they later read). -/
def getG (g : Groups) (i : Nat) : Nat :=
  match g.find? (fun p => p.1 = i) with
  | some p => p.2
  | Option.none => 0

/-! The fifteen regex patterns of `extract_parameters_from_text`, in source
order (preprocessing.py lines 299-351). -/

def milesGreaterRe : Re :=
  Re.seq [Re.alt [Re.lit "longer", Re.lit "greater", Re.lit "more", Re.lit "over", Re.lit "above", Re.lit "exceeding", Re.lit "at least", Re.lit "minimum"],
          Re.wsStar, Re.opt (Re.seq [Re.lit "than", Re.wsStar]), Re.digits 1 1 0,
          Re.wsStar, Re.lit "mile", Re.opt (Re.lit "s")]

def milesLessRe : Re :=
  Re.seq [Re.alt [Re.lit "shorter", Re.lit "less", Re.lit "under", Re.lit "below", Re.lit "within", Re.lit "at most", Re.lit "maximum"],
          Re.wsStar, Re.opt (Re.seq [Re.lit "than", Re.wsStar]), Re.digits 1 1 0,
          Re.wsStar, Re.lit "mile", Re.opt (Re.lit "s")]

def milesExactRe : Re :=
  Re.seq [Re.digits 1 3 5, Re.wsStar, Re.lit "mile", Re.opt (Re.lit "s")]

def delayGreaterRe : Re :=
  Re.seq [Re.alt [Re.lit "delay", Re.lit "delayed", Re.lit "late"], Re.dotsLazy,
          Re.alt [Re.lit "over", Re.lit "above", Re.lit "more than", Re.lit "greater than", Re.lit "exceeding", Re.lit "at least"],
          Re.wsStar, Re.digits 1 1 0]

def delayLessRe : Re :=
  Re.seq [Re.alt [Re.lit "delay", Re.lit "delayed", Re.lit "late"], Re.dotsLazy,
          Re.alt [Re.lit "under", Re.lit "below", Re.lit "less than", Re.lit "within", Re.lit "at most"],
          Re.wsStar, Re.digits 1 1 0]

def delayGreaterAltRe : Re :=
  Re.seq [Re.alt [Re.lit "over", Re.lit "above", Re.lit "more than", Re.lit "greater than", Re.lit "exceeding", Re.lit "at least"],
          Re.wsStar, Re.digits 1 1 0, Re.wsStar, Re.alt [Re.lit "min", Re.lit "minute"]]

def delayRangeRe : Re :=
  Re.seq [Re.digits 1 1 0, Re.wsStar, Re.alt [Re.lit "to", Re.lit "-"], Re.wsStar,
          Re.digits 2 1 0, Re.wsStar, Re.alt [Re.lit "min", Re.lit "minute"]]

def hourRe : Re :=
  Re.seq [Re.alt [Re.lit "more than", Re.lit "over", Re.lit "above", Re.lit "at least", Re.lit "exceeding"],
          Re.wsStar, Re.digits 1 1 0, Re.wsStar, Re.lit "hour", Re.opt (Re.lit "s")]

def hourAltRe : Re :=
  Re.seq [Re.digits 1 1 0, Re.wsStar, Re.lit "hour", Re.opt (Re.lit "s"), Re.wsStar,
          Re.alt [Re.lit "delay", Re.lit "late", Re.lit "delayed"]]

def anHourRe : Re :=
  Re.seq [Re.opt (Re.alt [Re.lit "more than", Re.lit "over", Re.lit "above", Re.lit "at least", Re.lit "exceeding"]),
          Re.wsStar, Re.alt [Re.seq [Re.lit "a", Re.opt (Re.lit "n")], Re.lit "one"],
          Re.wsStar, Re.lit "hour", Re.opt (Re.lit "s")]

def scoreLessRe : Re :=
  Re.seq [Re.alt [Re.lit "rating", Re.lit "score", Re.lit "satisfaction"], Re.dotsLazy,
          Re.alt [Re.lit "under", Re.lit "below", Re.lit "less than", Re.lit "at most", Re.lit "poor", Re.lit "bad"],
          Re.wsStar, Re.digits 1 1 1]

def scoreGreaterRe : Re :=
  Re.seq [Re.alt [Re.lit "rating", Re.lit "score", Re.lit "satisfaction"], Re.dotsLazy,
          Re.alt [Re.lit "over", Re.lit "above", Re.lit "more than", Re.lit "at least", Re.lit "good", Re.lit "excellent"],
          Re.wsStar, Re.digits 1 1 1]

def legsGreaterRe : Re :=
  Re.seq [Re.alt [Re.lit "more than", Re.lit "at least", Re.lit "over", Re.lit "above", Re.lit "exceeding", Re.lit "minimum"],
          Re.wsStar, Re.digits 1 1 0, Re.wsStar, Re.alt [Re.lit "leg", Re.lit "stop", Re.lit "connection"]]

def legsLessRe : Re :=
  Re.seq [Re.alt [Re.lit "less than", Re.lit "at most", Re.lit "under", Re.lit "below", Re.lit "within", Re.lit "maximum"],
          Re.wsStar, Re.digits 1 1 0, Re.wsStar, Re.alt [Re.lit "leg", Re.lit "stop", Re.lit "connection"]]

def legsExactRe : Re :=
  Re.seq [Re.digits 1 1 0, Re.wsStar, Re.alt [Re.lit "leg", Re.lit "stop", Re.lit "connection"]]

/-- `QueryPreprocessor.extract_parameters_from_text` (preprocessing.py lines
291-362): the explicit-numeric regex pass. -/
def extract_parameters_from_text (u : String) : Bag :=
  let parameters : Bag := []
  -- Explicit mileage patterns
  let miles_greater := reSearch milesGreaterRe u
  let miles_less := reSearch milesLessRe u
  let miles_exact := reSearch milesExactRe u
  let parameters :=
    match miles_greater with
    | some g => bagSet parameters "min_miles" (Value.intV (getG g 1))
    | Option.none => parameters
  let parameters :=
    match miles_less with
    | some g => bagSet parameters "max_miles" (Value.intV (getG g 1))
    | Option.none =>
      match miles_exact with
      | some g =>
        if !bagHasKey parameters "min_miles" then bagSet parameters "min_miles" (Value.intV (getG g 1))
        else parameters
      | Option.none => parameters
  -- Explicit delay patterns (an if/elif chain in the source)
  let an_hour := reSearch anHourRe u
  let hourM := reSearch hourRe u
  let hour_alt := reSearch hourAltRe u
  let delay_range := reSearch delayRangeRe u
  let delay_greater := reSearch delayGreaterRe u
  let delay_greater_alt := reSearch delayGreaterAltRe u
  let delay_less := reSearch delayLessRe u
  let parameters :=
    match an_hour with
    | some _ => bagSet parameters "min_delay" (Value.intV 60)
    | Option.none =>
      match hourM with
      | some g => bagSet parameters "min_delay" (Value.intV (getG g 1 * 60))
      | Option.none =>
        match hour_alt with
        | some g => bagSet parameters "min_delay" (Value.intV (getG g 1 * 60))
        | Option.none =>
          match delay_range with
          | some g =>
            bagSet (bagSet parameters "min_delay" (Value.intV (getG g 1))) "max_delay" (Value.intV (getG g 2))
          | Option.none =>
            match delay_greater with
            | some g => bagSet parameters "min_delay" (Value.intV (getG g 1))
            | Option.none =>
              match delay_greater_alt with
              | some g => bagSet parameters "min_delay" (Value.intV (getG g 1))
              | Option.none =>
                match delay_less with
                | some g => bagSet parameters "max_delay" (Value.intV (getG g 1))
                | Option.none => parameters
  -- Explicit satisfaction/rating patterns
  let score_less := reSearch scoreLessRe u
  let score_greater := reSearch scoreGreaterRe u
  let parameters :=
    match score_less with
    | some g => bagSet parameters "max_food_satisfaction" (Value.intV (getG g 1))
    | Option.none => parameters
  let parameters :=
    match score_greater with
    | some g => bagSet parameters "min_food_satisfaction" (Value.intV (getG g 1))
    | Option.none => parameters
  -- Explicit leg patterns
  let legs_greater := reSearch legsGreaterRe u
  let legs_less := reSearch legsLessRe u
  let legs_exact := reSearch legsExactRe u
  let parameters :=
    match legs_greater with
    | some g => bagSet parameters "min_legs" (Value.intV (getG g 1))
    | Option.none => parameters
  let parameters :=
    match legs_less with
    | some g => bagSet parameters "max_legs" (Value.intV (getG g 1))
    | Option.none =>
      match legs_exact with
      | some g =>
        if !bagHasKey parameters "min_legs" && !bagHasKey parameters "max_legs" then
          bagSet (bagSet parameters "min_legs" (Value.intV (getG g 1))) "max_legs" (Value.intV (getG g 1))
        else parameters
      | Option.none => parameters
  parameters

/-- The per-key merge of `process_query`: keys already present are never
overwritten by a later pass. -/
def mergeNew (a : Bag) : Bag → Bag
  | [] => a
  | (k, v) :: rest =>
    if bagHasKey a k then mergeNew a rest else mergeNew (bagSet a k v) rest

/-- The `needs_llm` trigger-word test of `process_query` (preprocessing.py
lines 446-449). -/
def needs_llm_check (u : String) : Bool :=
  anyIn (lowerStr u)
    ["severe", "moderate", "slight", "extreme", "poor", "bad", "good", "excellent",
     "short", "long", "medium", "direct", "connecting", "multi", "complex"]

/-- The parameter pipeline of `QueryPreprocessor.process_query`
(preprocessing.py lines 433-457): regex pass, then semantic pass merged
without overwriting, then — only if the bag is still empty and a trigger
word occurs — the external LLM pass, also merged without overwriting.  The
LLM extractor is an external service; its reply is an input here. -/
def process_query_params (u : String) (llmParams : Bag) : Except PyErr Bag := do
  let parameters := extract_parameters_from_text u
  let semantic_params ← infer_semantic_parameters u
  let parameters := mergeNew parameters semantic_params
  if needs_llm_check u && parameters.isEmpty then
    pure (mergeNew parameters llmParams)
  else
    pure parameters

/-- The filter clause the fallback synthesizer emits for each recognized
key: an equality, a CONTAINS containment, an airport endpoint match, or a
range comparison. -/
def fb_filter_clause : String → String
  | "generation" => "p.generation = $generation"
  | "loyalty_tier" => "p.loyalty_program_level = $loyalty_tier"
  | "fleet_type" => "f.fleet_type_description CONTAINS $fleet_type"
  | "origin" => fb_originClause
  | "dest" => fb_destClause
  | "class" => "j.passenger_class = $class"
  | "min_delay" => "j.arrival_delay_minutes >= $min_delay"
  | "max_delay" => "j.arrival_delay_minutes <= $max_delay"
  | "min_food_satisfaction" => "j.food_satisfaction_score >= $min_food_satisfaction"
  | "max_food_satisfaction" => "j.food_satisfaction_score <= $max_food_satisfaction"
  | "min_miles" => "j.actual_flown_miles >= $min_miles"
  | "max_miles" => "j.actual_flown_miles <= $max_miles"
  | "min_legs" => "j.number_of_legs >= $min_legs"
  | "max_legs" => "j.number_of_legs <= $max_legs"
  | _ => ""

/-!
## Lemmas

First the association-list (Python dict) laws, then text lemmas about joined
query strings, then the theorems settling the claims.
-/

theorem bagGet_set_self (b : Bag) (k : String) (v : Value) :
    bagGet (bagSet b k v) k = some v := by
  induction b with
  | nil => simp [bagSet, bagGet]
  | cons p rest ih =>
    obtain ⟨k', v'⟩ := p
    by_cases h : k' = k <;> simp [bagSet, bagGet, h, ih]

theorem bagGet_set_ne (b : Bag) (k k' : String) (v : Value) (hne : k' ≠ k) :
    bagGet (bagSet b k v) k' = bagGet b k' := by
  have hkk : ¬ k = k' := fun h => hne h.symm
  induction b with
  | nil => simp [bagSet, bagGet, hkk]
  | cons p rest ih =>
    obtain ⟨k0, v0⟩ := p
    by_cases h : k0 = k
    · subst h
      simp [bagSet, bagGet, hkk]
    · simp [bagSet, bagGet, h, ih]

theorem bagSet_same (b : Bag) (k : String) (v : Value) (h : bagGet b k = some v) :
    bagSet b k v = b := by
  induction b with
  | nil => simp [bagGet] at h
  | cons p rest ih =>
    obtain ⟨k0, v0⟩ := p
    by_cases hk : k0 = k
    · subst hk
      simp [bagGet] at h
      simp [bagSet, h]
    · simp [bagGet, hk] at h
      simp [bagSet, hk, ih h]

theorem bagGet_erase_ne (b : Bag) (k k' : String) (hne : k' ≠ k) :
    bagGet (bagErase b k) k' = bagGet b k' := by
  have hkk : ¬ k = k' := fun h => hne h.symm
  induction b with
  | nil => simp [bagErase]
  | cons p rest ih =>
    obtain ⟨k0, v0⟩ := p
    by_cases h : k0 = k
    · subst h
      simp [bagErase, bagGet, hkk]
    · simp [bagErase, bagGet, h, ih]

theorem bagGet_eq_none_of_not_mem (b : Bag) (k : String) (h : k ∉ bagKeys b) :
    bagGet b k = Option.none := by
  induction b with
  | nil => simp [bagGet]
  | cons p rest ih =>
    obtain ⟨k0, v0⟩ := p
    simp only [bagKeys, List.map_cons, List.mem_cons, not_or] at h
    have hk : ¬ k0 = k := fun hh => h.1 hh.symm
    simp only [bagGet, if_neg hk]
    exact ih h.2

theorem bagGet_erase_self (b : Bag) (k : String) (h : BagWF b) :
    bagGet (bagErase b k) k = Option.none := by
  induction b with
  | nil => simp [bagErase, bagGet]
  | cons p rest ih =>
    obtain ⟨k0, v0⟩ := p
    simp only [BagWF, bagKeys, List.map_cons, List.nodup_cons] at h
    by_cases hk : k0 = k
    · subst hk
      simp only [bagErase, if_pos rfl]
      exact bagGet_eq_none_of_not_mem rest k0 h.1
    · simp only [bagErase, if_neg hk, bagGet, if_neg hk]
      exact ih h.2

theorem bagHasKey_iff_mem (b : Bag) (k : String) :
    bagHasKey b k = true ↔ k ∈ bagKeys b := by
  induction b with
  | nil => simp [bagHasKey, bagGet, bagKeys]
  | cons p rest ih =>
    obtain ⟨k0, v0⟩ := p
    by_cases h : k0 = k
    · subst h
      simp [bagHasKey, bagGet, bagKeys]
    · simp only [bagHasKey, bagGet, if_neg h, bagKeys, List.map_cons, List.mem_cons]
      constructor
      · intro hh
        exact Or.inr (ih.1 hh)
      · intro hh
        rcases hh with hh | hh
        · exact absurd hh.symm h
        · exact ih.2 hh

theorem bagKeys_set_of_has (b : Bag) (k : String) (v : Value)
    (h : bagHasKey b k = true) : bagKeys (bagSet b k v) = bagKeys b := by
  induction b with
  | nil => simp [bagHasKey, bagGet] at h
  | cons p rest ih =>
    obtain ⟨k0, v0⟩ := p
    by_cases hk : k0 = k
    · subst hk
      simp [bagSet, bagKeys]
    · simp only [bagHasKey, bagGet, if_neg hk] at h
      simp [bagSet, bagKeys, hk]
      simpa [bagKeys] using ih h

theorem bagKeys_set_of_not (b : Bag) (k : String) (v : Value)
    (h : bagHasKey b k = false) : bagKeys (bagSet b k v) = bagKeys b ++ [k] := by
  induction b with
  | nil => simp [bagSet, bagKeys]
  | cons p rest ih =>
    obtain ⟨k0, v0⟩ := p
    by_cases hk : k0 = k
    · subst hk
      simp [bagHasKey, bagGet] at h
    · simp only [bagHasKey, bagGet, if_neg hk] at h
      simp [bagSet, bagKeys, hk]
      simpa [bagKeys] using ih h

theorem BagWF_set (b : Bag) (k : String) (v : Value) (h : BagWF b) :
    BagWF (bagSet b k v) := by
  by_cases hk : bagHasKey b k = true
  · induction b with
    | nil => simp [bagHasKey, bagGet] at hk
    | cons p rest ih =>
      obtain ⟨k0, v0⟩ := p
      simp only [BagWF, bagKeys, List.map_cons, List.nodup_cons] at h
      by_cases h0 : k0 = k
      · subst h0
        simpa [bagSet, BagWF, bagKeys, List.nodup_cons] using h
      · simp only [bagHasKey, bagGet, if_neg h0] at hk
        have := ih h.2 hk
        simp only [bagSet, if_neg h0]
        simp only [BagWF, bagKeys, List.map_cons, List.nodup_cons] at this ⊢
        refine ⟨?_, this⟩
        rw [show (bagSet rest k v).map Prod.fst = bagKeys (bagSet rest k v) from rfl,
            bagKeys_set_of_has rest k v hk]
        exact h.1
  · have hk' : bagHasKey b k = false := by simpa using hk
    unfold BagWF
    rw [bagKeys_set_of_not b k v hk']
    simp [List.nodup_append, h]
    constructor
    · exact h
    · intro hmem
      exact absurd ((bagHasKey_iff_mem b k).2 hmem) (by simp [hk'])

theorem bagKeys_erase_sublist (b : Bag) (k : String) :
    List.Sublist (bagKeys (bagErase b k)) (bagKeys b) := by
  induction b with
  | nil => simp [bagErase]
  | cons p rest ih =>
    obtain ⟨k0, v0⟩ := p
    by_cases h : k0 = k
    · simp only [bagErase, if_pos h, bagKeys, List.map_cons]
      exact (List.Sublist.refl _).cons _
    · simp only [bagErase, if_neg h, bagKeys, List.map_cons]
      exact List.Sublist.cons₂ _ ih

theorem BagWF_erase (b : Bag) (k : String) (h : BagWF b) : BagWF (bagErase b k) :=
  List.Nodup.sublist (bagKeys_erase_sublist b k) h

theorem bagGet_mem (b : Bag) (k : String) (v : Value) (h : bagGet b k = some v) :
    (k, v) ∈ b := by
  induction b with
  | nil => simp [bagGet] at h
  | cons p rest ih =>
    obtain ⟨k0, v0⟩ := p
    by_cases hk : k0 = k
    · subst hk
      simp [bagGet] at h
      simp [h]
    · simp only [bagGet, if_neg hk] at h
      exact List.mem_cons_of_mem _ (ih h)

theorem BagAllStr_get (b : Bag) (k : String) (v : Value) (hall : BagAllStr b)
    (h : bagGet b k = some v) : ∃ s, v = Value.str s :=
  hall (k, v) (bagGet_mem b k v h)

theorem BagAllStr_set (b : Bag) (k : String) (s : String) (hall : BagAllStr b) :
    BagAllStr (bagSet b k (Value.str s)) := by
  induction b with
  | nil =>
    intro p hp
    simp [bagSet] at hp
    exact ⟨s, by simp [hp]⟩
  | cons q rest ih =>
    obtain ⟨k0, v0⟩ := q
    have hall' : BagAllStr rest := fun p hp => hall p (List.mem_cons_of_mem _ hp)
    by_cases hk : k0 = k
    · subst hk
      intro p hp
      simp [bagSet] at hp
      rcases hp with hp | hp
      · exact ⟨s, by simp [hp]⟩
      · exact hall p (List.mem_cons_of_mem _ hp)
    · intro p hp
      simp only [bagSet, if_neg hk, List.mem_cons] at hp
      rcases hp with hp | hp
      · exact hall p (by simp [hp])
      · exact ih hall' p hp

theorem bagHasKey_set_self (b : Bag) (k : String) (v : Value) :
    bagHasKey (bagSet b k v) k = true := by
  simp [bagHasKey, bagGet_set_self]

theorem bagHasKey_set_ne (b : Bag) (k k' : String) (v : Value) (hne : k' ≠ k) :
    bagHasKey (bagSet b k v) k' = bagHasKey b k' := by
  simp [bagHasKey, bagGet_set_ne b k k' v hne]

theorem bagHasKey_erase_ne (b : Bag) (k k' : String) (hne : k' ≠ k) :
    bagHasKey (bagErase b k) k' = bagHasKey b k' := by
  simp [bagHasKey, bagGet_erase_ne b k k' hne]

theorem bagHasKey_set_all (b : Bag) (k k' : String) (v : Value)
    (h : bagHasKey b k = true) : bagHasKey (bagSet b k v) k' = bagHasKey b k' := by
  by_cases hm : k' ∈ bagKeys b
  · have t1 : bagHasKey (bagSet b k v) k' = true :=
      (bagHasKey_iff_mem _ _).2 (by rw [bagKeys_set_of_has b k v h]; exact hm)
    rw [t1, (bagHasKey_iff_mem _ _).2 hm]
  · have t1 : bagHasKey (bagSet b k v) k' ≠ true := fun hc =>
      hm (by rw [← bagKeys_set_of_has b k v h]; exact (bagHasKey_iff_mem _ _).1 hc)
    have t2 : bagHasKey b k' ≠ true := fun hc => hm ((bagHasKey_iff_mem _ _).1 hc)
    simp only [Bool.not_eq_true] at t1 t2
    rw [t1, t2]

theorem BagAllStr_erase (b : Bag) (k : String) (hall : BagAllStr b) :
    BagAllStr (bagErase b k) := by
  induction b with
  | nil => simpa [bagErase] using hall
  | cons q rest ih =>
    obtain ⟨k0, v0⟩ := q
    have hall' : BagAllStr rest := fun p hp => hall p (List.mem_cons_of_mem _ hp)
    by_cases hk : k0 = k
    · subst hk
      simpa [bagErase] using hall'
    · intro p hp
      simp only [bagErase, if_neg hk, List.mem_cons] at hp
      rcases hp with hp | hp
      · exact hall p (by simp [hp])
      · exact ih hall' p hp

/-! ### Lemmas about the key-renaming step -/

theorem renameStep_id (b : Bag) (old new : String) (h : bagHasKey b old = false) :
    renameStep b old new = b := by
  unfold renameStep
  unfold bagHasKey at h
  cases hh : bagGet b old with
  | none => rfl
  | some v => rw [hh] at h; simp at h

theorem renameStep_get_other (b : Bag) (old new k : String)
    (hko : k ≠ old) (hkn : k ≠ new) :
    bagGet (renameStep b old new) k = bagGet b k := by
  unfold renameStep
  cases hh : bagGet b old with
  | none => rfl
  | some v =>
    rw [bagGet_set_ne _ _ _ _ hkn, bagGet_erase_ne _ _ _ hko]

theorem renameStep_hasKey_other (b : Bag) (old new k : String)
    (hko : k ≠ old) (hkn : k ≠ new) :
    bagHasKey (renameStep b old new) k = bagHasKey b k := by
  simp [bagHasKey, renameStep_get_other b old new k hko hkn]

theorem renameStep_not_old (b : Bag) (old new : String)
    (hwf : BagWF b) (hne : old ≠ new) :
    bagHasKey (renameStep b old new) old = false := by
  unfold renameStep
  cases hh : bagGet b old with
  | none => simp [bagHasKey, hh]
  | some v =>
    simp [bagHasKey, bagGet_set_ne _ _ _ _ hne, bagGet_erase_self b old hwf]

theorem renameStep_get_new (b : Bag) (old new : String) (v : Value)
    (h : bagGet b old = some v) :
    bagGet (renameStep b old new) new = some v := by
  unfold renameStep
  rw [h]
  exact bagGet_set_self _ _ _

theorem renameStep_wf (b : Bag) (old new : String) (hwf : BagWF b) :
    BagWF (renameStep b old new) := by
  unfold renameStep
  cases hh : bagGet b old with
  | none => exact hwf
  | some v => exact BagWF_set _ _ _ (BagWF_erase b old hwf)

theorem renameStep_allStr (b : Bag) (old new : String) (hall : BagAllStr b) :
    BagAllStr (renameStep b old new) := by
  unfold renameStep
  cases hh : bagGet b old with
  | none => exact hall
  | some v =>
    obtain ⟨s, rfl⟩ := BagAllStr_get b old v hall hh
    exact BagAllStr_set _ _ _ (BagAllStr_erase b old hall)

theorem renameAll_wf (b : Bag) (hwf : BagWF b) : BagWF (renameAll b) := by
  unfold renameAll
  exact renameStep_wf _ _ _ (renameStep_wf _ _ _ (renameStep_wf _ _ _
    (renameStep_wf _ _ _ (renameStep_wf _ _ _ hwf))))

theorem renameAll_allStr (b : Bag) (hall : BagAllStr b) : BagAllStr (renameAll b) := by
  unfold renameAll
  exact renameStep_allStr _ _ _ (renameStep_allStr _ _ _ (renameStep_allStr _ _ _
    (renameStep_allStr _ _ _ (renameStep_allStr _ _ _ hall))))

theorem renameAll_get_gen (b : Bag) :
    bagGet (renameAll b) "generation" = bagGet b "generation" := by
  unfold renameAll
  rw [renameStep_get_other _ _ _ _ (by decide) (by decide),
      renameStep_get_other _ _ _ _ (by decide) (by decide),
      renameStep_get_other _ _ _ _ (by decide) (by decide),
      renameStep_get_other _ _ _ _ (by decide) (by decide),
      renameStep_get_other _ _ _ _ (by decide) (by decide)]

theorem renameAll_get_destination (b : Bag) :
    bagGet (renameAll b) "destination" = bagGet b "destination" := by
  unfold renameAll
  rw [renameStep_get_other _ _ _ _ (by decide) (by decide),
      renameStep_get_other _ _ _ _ (by decide) (by decide),
      renameStep_get_other _ _ _ _ (by decide) (by decide),
      renameStep_get_other _ _ _ _ (by decide) (by decide),
      renameStep_get_other _ _ _ _ (by decide) (by decide)]

theorem renameAll_not_origin_code (b : Bag) (hwf : BagWF b) :
    bagHasKey (renameAll b) "origin_code" = false := by
  unfold renameAll
  rw [renameStep_hasKey_other _ _ _ _ (by decide) (by decide),
      renameStep_hasKey_other _ _ _ _ (by decide) (by decide),
      renameStep_hasKey_other _ _ _ _ (by decide) (by decide),
      renameStep_hasKey_other _ _ _ _ (by decide) (by decide)]
  exact renameStep_not_old b _ _ hwf (by decide)

theorem renameAll_not_dest_code (b : Bag) (hwf : BagWF b) :
    bagHasKey (renameAll b) "dest_code" = false := by
  unfold renameAll
  rw [renameStep_hasKey_other _ _ _ _ (by decide) (by decide),
      renameStep_hasKey_other _ _ _ _ (by decide) (by decide),
      renameStep_hasKey_other _ _ _ _ (by decide) (by decide)]
  exact renameStep_not_old _ _ _ (renameStep_wf _ _ _ hwf) (by decide)

theorem renameAll_not_vip_id (b : Bag) (hwf : BagWF b) :
    bagHasKey (renameAll b) "vip_id" = false := by
  unfold renameAll
  rw [renameStep_hasKey_other _ _ _ _ (by decide) (by decide),
      renameStep_hasKey_other _ _ _ _ (by decide) (by decide)]
  exact renameStep_not_old _ _ _ (renameStep_wf _ _ _ (renameStep_wf _ _ _ hwf)) (by decide)

theorem renameAll_not_loyalty_level (b : Bag) (hwf : BagWF b) :
    bagHasKey (renameAll b) "loyalty_level" = false := by
  unfold renameAll
  rw [renameStep_hasKey_other _ _ _ _ (by decide) (by decide)]
  exact renameStep_not_old _ _ _
    (renameStep_wf _ _ _ (renameStep_wf _ _ _ (renameStep_wf _ _ _ hwf))) (by decide)

theorem renameAll_not_passenger_class (b : Bag) (hwf : BagWF b) :
    bagHasKey (renameAll b) "passenger_class" = false := by
  unfold renameAll
  exact renameStep_not_old _ _ _
    (renameStep_wf _ _ _ (renameStep_wf _ _ _ (renameStep_wf _ _ _
      (renameStep_wf _ _ _ hwf)))) (by decide)

theorem renameAll_id (b : Bag)
    (h1 : bagHasKey b "origin_code" = false)
    (h2 : bagHasKey b "dest_code" = false)
    (h3 : bagHasKey b "vip_id" = false)
    (h4 : bagHasKey b "loyalty_level" = false)
    (h5 : bagHasKey b "passenger_class" = false) :
    renameAll b = b := by
  simp only [renameAll]
  rw [renameStep_id b _ _ h1, renameStep_id b _ _ h2, renameStep_id b _ _ h3,
      renameStep_id b _ _ h4, renameStep_id b _ _ h5]

/-! ### Value-level fixpoints of the two normalizations -/

theorem genFix_fix (s : String) : genFix (genFix s) = genFix s := by
  by_cases h1 : containsSub (lowerStr s) "boomer" = true
  · have hs : genFix s = "Boomer" := by simp [genFix, h1]
    rw [hs]; decide
  · by_cases h2 : containsSub (lowerStr s) "millennial" = true
    · have hs : genFix s = "Millennial" := by
        simp [genFix, Bool.of_not_eq_true h1, h2]
      rw [hs]; decide
    · by_cases h3 : containsSub (lowerStr s) "gen x" = true
      · have hs : genFix s = "Gen X" := by
          simp [genFix, Bool.of_not_eq_true h1, Bool.of_not_eq_true h2, h3]
        rw [hs]; decide
      · by_cases h4 : containsSub (lowerStr s) "gen z" = true
        · have hs : genFix s = "Gen Z" := by
            simp [genFix, Bool.of_not_eq_true h1, Bool.of_not_eq_true h2,
              Bool.of_not_eq_true h3, h4]
          rw [hs]; decide
        · have hs : genFix s = s := by
            simp [genFix, Bool.of_not_eq_true h1, Bool.of_not_eq_true h2,
              Bool.of_not_eq_true h3, Bool.of_not_eq_true h4]
          rw [hs, hs]

theorem tierFix_fix (s : String) : tierFix (tierFix s) = tierFix s := by
  set t := replaceStr (replaceStr (lowerStr s) "-" "") " " "" with ht
  by_cases h1 : (containsSub t "premiergold" || t = "gold") = true
  · have hs : tierFix s = "premier gold" := by simp only [tierFix, ← ht, h1, if_pos]
    rw [hs]; decide
  · by_cases h2 : (containsSub t "premiersilver" || t = "silver") = true
    · have hs : tierFix s = "premier silver" := by
        simp only [tierFix, ← ht, h1, h2, if_neg, if_pos, Bool.false_eq_true,
          not_false_eq_true]
      rw [hs]; decide
    · by_cases h3 : (containsSub t "premierplatinum" || t = "platinum") = true
      · have hs : tierFix s = "premier platinum" := by
          simp only [tierFix, ← ht, Bool.of_not_eq_true h1, Bool.of_not_eq_true h2, h3,
            Bool.false_eq_true, if_neg, if_pos, not_false_eq_true]
        rw [hs]; decide
      · by_cases h4 : (containsSub t "premier1k" || t = "1k") = true
        · have hs : tierFix s = "premier 1k" := by
            simp only [tierFix, ← ht, Bool.of_not_eq_true h1, Bool.of_not_eq_true h2,
              Bool.of_not_eq_true h3, h4, Bool.false_eq_true, if_neg, if_pos,
              not_false_eq_true]
          rw [hs]; decide
        · by_cases h5 : containsSub t "nonelite" = true
          · have hs : tierFix s = "non-elite" := by
              simp only [tierFix, ← ht, Bool.of_not_eq_true h1, Bool.of_not_eq_true h2,
                Bool.of_not_eq_true h3, Bool.of_not_eq_true h4, h5, Bool.false_eq_true,
                if_neg, if_pos, not_false_eq_true]
            rw [hs]; decide
          · have hs : tierFix s = s := by
              simp only [tierFix, ← ht, Bool.of_not_eq_true h1, Bool.of_not_eq_true h2,
                Bool.of_not_eq_true h3, Bool.of_not_eq_true h4, Bool.of_not_eq_true h5,
                Bool.false_eq_true, if_neg, not_false_eq_true]
            rw [hs, hs]

/-! ### Step lemmas for `normalize_entities` -/

theorem genStep_none (b : Bag) (h : bagGet b "generation" = Option.none) :
    genStep b = .ok b := by
  unfold genStep
  simp [bagHasKey, h]

theorem genStep_str (b : Bag) (s : String)
    (h : bagGet b "generation" = some (Value.str s)) :
    genStep b = .ok (bagSet b "generation" (Value.str (genFix s))) := by
  unfold genStep
  simp [bagHasKey, h]

theorem tierStep_none (b : Bag) (h : bagGet b "loyalty_tier" = Option.none) :
    tierStep b = .ok b := by
  unfold tierStep
  simp [bagHasKey, h]

theorem tierStep_str (b : Bag) (s : String)
    (h : bagGet b "loyalty_tier" = some (Value.str s)) :
    tierStep b = .ok (bagSet b "loyalty_tier" (Value.str (tierFix s))) := by
  unfold tierStep
  simp [bagHasKey, h]

theorem genStep_spec (b : Bag) (hall : BagAllStr b) (hwf : BagWF b) :
    ∃ b1, genStep b = .ok b1 ∧ BagWF b1 ∧ BagAllStr b1 ∧
      (∀ k, k ≠ "generation" → bagGet b1 k = bagGet b k) ∧
      (∀ k, bagHasKey b1 k = bagHasKey b k) ∧
      (∀ s, bagGet b1 "generation" = some (Value.str s) → genFix s = s) := by
  cases hg : bagGet b "generation" with
  | none =>
    refine ⟨b, genStep_none b hg, hwf, hall, fun _ _ => rfl, fun _ => rfl, ?_⟩
    intro s hs
    rw [hg] at hs
    cases hs
  | some v =>
    obtain ⟨s, rfl⟩ := BagAllStr_get b _ v hall hg
    refine ⟨bagSet b "generation" (Value.str (genFix s)), genStep_str b s hg,
      BagWF_set b _ _ hwf, BagAllStr_set b _ _ hall,
      fun k hk => bagGet_set_ne b _ k _ hk,
      fun k => bagHasKey_set_all b _ k _ (by simp [bagHasKey, hg]), ?_⟩
    intro s' hs'
    rw [bagGet_set_self] at hs'
    have : s' = genFix s := by
      injection hs' with h1
      injection h1.symm
    rw [this]
    exact genFix_fix s

theorem tierStep_spec (b : Bag) (hall : BagAllStr b) (hwf : BagWF b) :
    ∃ c, tierStep b = .ok c ∧ BagWF c ∧ BagAllStr c ∧
      (∀ k, k ≠ "loyalty_tier" → bagGet c k = bagGet b k) ∧
      (∀ k, bagHasKey c k = bagHasKey b k) ∧
      (∀ s, bagGet c "loyalty_tier" = some (Value.str s) → tierFix s = s) := by
  cases hg : bagGet b "loyalty_tier" with
  | none =>
    refine ⟨b, tierStep_none b hg, hwf, hall, fun _ _ => rfl, fun _ => rfl, ?_⟩
    intro s hs
    rw [hg] at hs
    cases hs
  | some v =>
    obtain ⟨s, rfl⟩ := BagAllStr_get b _ v hall hg
    refine ⟨bagSet b "loyalty_tier" (Value.str (tierFix s)), tierStep_str b s hg,
      BagWF_set b _ _ hwf, BagAllStr_set b _ _ hall,
      fun k hk => bagGet_set_ne b _ k _ hk,
      fun k => bagHasKey_set_all b _ k _ (by simp [bagHasKey, hg]), ?_⟩
    intro s' hs'
    rw [bagGet_set_self] at hs'
    have : s' = tierFix s := by
      injection hs' with h1
      injection h1.symm
    rw [this]
    exact tierFix_fix s

theorem renameAll_get_origin_of (b : Bag) (v : Value)
    (h : bagGet b "origin_code" = some v) :
    bagGet (renameAll b) "origin" = some v := by
  unfold renameAll
  rw [renameStep_get_other _ _ _ _ (by decide) (by decide),
      renameStep_get_other _ _ _ _ (by decide) (by decide),
      renameStep_get_other _ _ _ _ (by decide) (by decide),
      renameStep_get_other _ _ _ _ (by decide) (by decide)]
  exact renameStep_get_new b _ _ v h

theorem renameAll_get_dest_of (b : Bag) (v : Value)
    (h : bagGet b "dest_code" = some v) :
    bagGet (renameAll b) "dest" = some v := by
  unfold renameAll
  rw [renameStep_get_other _ _ _ _ (by decide) (by decide),
      renameStep_get_other _ _ _ _ (by decide) (by decide),
      renameStep_get_other _ _ _ _ (by decide) (by decide)]
  apply renameStep_get_new
  rw [renameStep_get_other _ _ _ _ (by decide) (by decide)]
  exact h

theorem renameAll_get_rl_of (b : Bag) (v : Value)
    (h : bagGet b "vip_id" = some v) :
    bagGet (renameAll b) "record_locator" = some v := by
  unfold renameAll
  rw [renameStep_get_other _ _ _ _ (by decide) (by decide),
      renameStep_get_other _ _ _ _ (by decide) (by decide)]
  apply renameStep_get_new
  rw [renameStep_get_other _ _ _ _ (by decide) (by decide),
      renameStep_get_other _ _ _ _ (by decide) (by decide)]
  exact h

theorem renameAll_get_lt_of (b : Bag) (v : Value)
    (h : bagGet b "loyalty_level" = some v) :
    bagGet (renameAll b) "loyalty_tier" = some v := by
  unfold renameAll
  rw [renameStep_get_other _ _ _ _ (by decide) (by decide)]
  apply renameStep_get_new
  rw [renameStep_get_other _ _ _ _ (by decide) (by decide),
      renameStep_get_other _ _ _ _ (by decide) (by decide),
      renameStep_get_other _ _ _ _ (by decide) (by decide)]
  exact h

theorem renameAll_get_class_of (b : Bag) (v : Value)
    (h : bagGet b "passenger_class" = some v) :
    bagGet (renameAll b) "class" = some v := by
  unfold renameAll
  apply renameStep_get_new
  rw [renameStep_get_other _ _ _ _ (by decide) (by decide),
      renameStep_get_other _ _ _ _ (by decide) (by decide),
      renameStep_get_other _ _ _ _ (by decide) (by decide),
      renameStep_get_other _ _ _ _ (by decide) (by decide)]
  exact h

theorem genStep_nop (c : Bag) (hall : BagAllStr c)
    (hfix : ∀ s, bagGet c "generation" = some (Value.str s) → genFix s = s) :
    genStep c = .ok c := by
  cases hg : bagGet c "generation" with
  | none => exact genStep_none c hg
  | some v =>
    obtain ⟨s, rfl⟩ := BagAllStr_get c _ v hall hg
    rw [genStep_str c s hg, hfix s hg, bagSet_same c _ _ hg]

theorem tierStep_nop (c : Bag) (hall : BagAllStr c)
    (hfix : ∀ s, bagGet c "loyalty_tier" = some (Value.str s) → tierFix s = s) :
    tierStep c = .ok c := by
  cases hg : bagGet c "loyalty_tier" with
  | none => exact tierStep_none c hg
  | some v =>
    obtain ⟨s, rfl⟩ := BagAllStr_get c _ v hall hg
    rw [tierStep_str c s hg, hfix s hg, bagSet_same c _ _ hg]

/-- Crack a successful run of `normalize_entities` into its stages and the
facts the idempotence and renaming arguments need about the output bag. -/
theorem normalize_spec (b : Bag) (hwf : BagWF b) (hall : BagAllStr b) :
    ∃ b1 c, genStep b = .ok b1 ∧ tierStep (renameAll b1) = .ok c ∧
      normalize_entities b = .ok c ∧
      BagWF b1 ∧ BagAllStr b1 ∧ BagWF c ∧ BagAllStr c ∧
      (∀ k, k ≠ "generation" → bagGet b1 k = bagGet b k) ∧
      (∀ k, bagHasKey b1 k = bagHasKey b k) ∧
      (∀ k, k ≠ "loyalty_tier" → bagGet c k = bagGet (renameAll b1) k) ∧
      (∀ k, bagHasKey c k = bagHasKey (renameAll b1) k) ∧
      (∀ s, bagGet c "generation" = some (Value.str s) → genFix s = s) ∧
      (∀ s, bagGet c "loyalty_tier" = some (Value.str s) → tierFix s = s) := by
  obtain ⟨b1, hgen, hwf1, hall1, hget1, hhk1, hfix1⟩ := genStep_spec b hall hwf
  have hwf2 : BagWF (renameAll b1) := renameAll_wf _ hwf1
  have hall2 : BagAllStr (renameAll b1) := renameAll_allStr _ hall1
  obtain ⟨c, htier, hwfc, hallc, hgetc, hhkc, hfixc⟩ := tierStep_spec (renameAll b1) hall2 hwf2
  have hnorm : normalize_entities b = .ok c := by
    unfold normalize_entities
    rw [hgen]
    exact htier
  refine ⟨b1, c, hgen, htier, hnorm, hwf1, hall1, hwfc, hallc, hget1, hhk1, hgetc, hhkc, ?_, hfixc⟩
  intro s hs
  have h2 : bagGet (renameAll b1) "generation" = some (Value.str s) := by
    rw [← hgetc "generation" (by decide)]
    exact hs
  rw [renameAll_get_gen b1] at h2
  exact hfix1 s h2

/-! ### Lemmas about the canned-template router -/

theorem firstMatch_mem {l : List (Bool × String)} {q : String}
    (h : firstMatch l = some q) : q ∈ l.map Prod.snd := by
  induction l with
  | nil => exact Option.noConfusion h
  | cons p rest ih =>
    obtain ⟨g, t⟩ := p
    cases g with
    | true =>
      have h' : some t = some q := h
      rw [Option.some.injEq] at h'
      subst h'
      simp
    | false =>
      have h' : firstMatch rest = some q := h
      exact List.mem_cons_of_mem _ (ih h')

theorem snT_sub (b : Bag) (q : String) (h : firstMatch (sn_table b) = some q) :
    q ∈ allTemplates := by
  have hm := firstMatch_mem h
  rw [show (sn_table b).map Prod.snd = snQs from rfl] at hm
  exact (by decide : ∀ x ∈ snQs, x ∈ allTemplates) q hm

theorem asT_sub (b : Bag) (q : String) (h : firstMatch (as_table b) = some q) :
    q ∈ allTemplates := by
  have hm := firstMatch_mem h
  rw [show (as_table b).map Prod.snd = asQs from rfl] at hm
  exact (by decide : ∀ x ∈ asQs, x ∈ allTemplates) q hm

theorem adT_sub (b : Bag) (q : String) (h : firstMatch (ad_table b) = some q) :
    q ∈ allTemplates := by
  have hm := firstMatch_mem h
  rw [show (ad_table b).map Prod.snd = adQs from rfl] at hm
  exact (by decide : ∀ x ∈ adQs, x ∈ allTemplates) q hm

theorem aiT_sub (b : Bag) (q : String) (h : firstMatch (ai_table b) = some q) :
    q ∈ allTemplates := by
  have hm := firstMatch_mem h
  rw [show (ai_table b).map Prod.snd = aiQs from rfl] at hm
  exact (by decide : ∀ x ∈ aiQs, x ∈ allTemplates) q hm

theorem ldT_sub (b : Bag) (q : String) (h : firstMatch (ld_table b) = some q) :
    q ∈ allTemplates := by
  have hm := firstMatch_mem h
  rw [show (ld_table b).map Prod.snd = ldQs from rfl] at hm
  exact (by decide : ∀ x ∈ ldQs, x ∈ allTemplates) q hm

theorem apT_sub (b : Bag) (q : String) (h : firstMatch (ap_table b) = some q) :
    q ∈ allTemplates := by
  have hm := firstMatch_mem h
  rw [show (ap_table b).map Prod.snd = apQs from rfl] at hm
  exact (by decide : ∀ x ∈ apQs, x ∈ allTemplates) q hm

theorem alT_sub (b : Bag) (q : String) (h : firstMatch (al_table b) = some q) :
    q ∈ allTemplates := by
  have hm := firstMatch_mem h
  rw [show (al_table b).map Prod.snd = alQs from rfl] at hm
  exact (by decide : ∀ x ∈ alQs, x ∈ allTemplates) q hm

theorem aeT_sub (b : Bag) (q : String) (h : firstMatch (ae_table b) = some q) :
    q ∈ allTemplates := by
  have hm := firstMatch_mem h
  rw [show (ae_table b).map Prod.snd = aeQs from rfl] at hm
  exact (by decide : ∀ x ∈ aeQs, x ∈ allTemplates) q hm

theorem ajT_sub (b : Bag) (q : String) (h : firstMatch (aj_table b) = some q) :
    q ∈ allTemplates := by
  have hm := firstMatch_mem h
  rw [show (aj_table b).map Prod.snd = ajQs from rfl] at hm
  exact (by decide : ∀ x ∈ ajQs, x ∈ allTemplates) q hm

theorem crT_sub (b : Bag) (q : String) (h : firstMatch (cr_table b) = some q) :
    q ∈ allTemplates := by
  have hm := firstMatch_mem h
  rw [show (cr_table b).map Prod.snd = crQs from rfl] at hm
  exact (by decide : ∀ x ∈ crQs, x ∈ allTemplates) q hm

/-- Whatever `_get_specific_query` returns is one of the canned templates. -/
theorem spq_mem (i : String) (b : Bag) (q : String)
    (h : _get_specific_query i b = some q) : q ∈ allTemplates := by
  unfold _get_specific_query at h
  repeat' (split at h)
  · exact snT_sub b q h
  · exact asT_sub b q h
  · exact adT_sub b q h
  · exact aiT_sub b q h
  · exact ldT_sub b q h
  · exact apT_sub b q h
  · exact alT_sub b q h
  · exact aeT_sub b q h
  · exact ajT_sub b q h
  · exact crT_sub b q h
  · exact Option.noConfusion h

/-- Every canned template is non-empty, and none of them contains the text
`$_` (so the router's `'$_key' in query` disjunct never fires on a canned
template). -/
theorem allTemplates_props : ∀ q ∈ allTemplates, q ≠ "" ∧ containsSub q "$_" = false := by
  decide

theorem containsSub_extend (hay pre k : String)
    (h : containsSub hay (pre ++ k) = true) : containsSub hay pre = true := by
  unfold containsSub at *
  rw [decide_eq_true_iff] at *
  have hp : pre.data <+: (pre ++ k).data := by
    rw [String.data_append]
    exact List.prefix_append _ _
  exact List.IsInfix.trans hp.isInfix h

/-- For a canned template, the router's used-entity test collapses to the
plain `'$key' in query` test. -/
theorem spq_usedRef (i : String) (b : Bag) (q : String) (k : String)
    (h : _get_specific_query i b = some q) :
    (containsSub q ("$" ++ k) || containsSub q ("$_" ++ k)) = containsSub q ("$" ++ k) := by
  have hq := (allTemplates_props q (spq_mem i b q h)).2
  cases hc : containsSub q ("$_" ++ k) with
  | false => simp
  | true =>
    exfalso
    have : containsSub q "$_" = true := containsSub_extend q "$_" k hc
    rw [hq] at this
    cases this

/-! ### Non-emptiness of constructed queries -/

theorem joinWithStr_len (sep x : String) (xs : List String) :
    x.length ≤ (joinWithStr sep (x :: xs)).length := by
  cases xs with
  | nil => simp [joinWithStr]
  | cons y ys =>
    simp only [joinWithStr, String.length_append]
    omega

theorem fb_head_len (e : Bag) : 0 < (fb_head e).length := by
  unfold fb_head
  dsimp only
  repeat' split
  all_goals decide

theorem fallback_ne_empty (e : Bag) : _build_fallback_query e ≠ "" := by
  have h1 : 0 < (fb_head e).length := fb_head_len e
  have h2 : (fb_head e).length ≤ (joinWithStr "\n" (fb_match_clauses e)).length :=
    joinWithStr_len "\n" (fb_head e) _
  have h3 : (joinWithStr "\n" (fb_match_clauses e)).length
      ≤ (_build_fallback_query e).length :=
    joinWithStr_len "\n" _ _
  intro hempty
  rw [hempty] at h3
  have h0 := lt_of_lt_of_le h1 (le_trans h2 h3)
  simp at h0

theorem gqfi_ne_empty (intent : String) (b : Bag) :
    get_query_for_intent intent b ≠ "" := by
  unfold get_query_for_intent
  cases h : _get_specific_query intent b with
  | none => exact fallback_ne_empty b
  | some q =>
    have hq : q ≠ "" := (allTemplates_props q (spq_mem intent b q h)).1
    dsimp only
    split
    · exact hq
    · exact fallback_ne_empty b

/-! ### Lemmas about `run_query` -/

theorem run_query_ok (driver : Option (String → Bag → Except String (List Row)))
    (intent : String) (b : Bag) (res : RunResult × List String)
    (h : run_query driver intent b = .ok res) :
    ∃ nb, normalize_entities b = .ok nb ∧ res = run_query_core driver intent (dropNulls nb) := by
  unfold run_query at h
  cases hn : normalize_entities b with
  | error e =>
    rw [hn] at h
    exact Except.noConfusion h
  | ok nb =>
    rw [hn] at h
    refine ⟨nb, rfl, ?_⟩
    exact (Except.ok.inj h).symm

theorem run_query_exec_not_CE
    (driver : Option (String → Bag → Except String (List Row)))
    (q : String) (cp : Bag) :
    (run_query_exec driver q cp).1.isConstructError = false := by
  cases driver with
  | none => rfl
  | some exec =>
    cases hx : exec q cp with
    | ok records => simp [run_query_exec, hx, RunResult.isConstructError]
    | error e => simp [run_query_exec, hx, RunResult.isConstructError]

theorem run_query_core_not_CE
    (driver : Option (String → Bag → Except String (List Row)))
    (intent : String) (cp : Bag) :
    (run_query_core driver intent cp).1.isConstructError = false := by
  unfold run_query_core
  dsimp only
  rw [if_neg (gqfi_ne_empty intent cp)]
  exact run_query_exec_not_CE driver _ cp

theorem run_query_exec_calls (exec : String → Bag → Except String (List Row))
    (q : String) (cp : Bag) :
    (run_query_exec (some exec) q cp).2 = [q] := by
  cases hx : exec q cp with
  | ok records => simp [run_query_exec, hx]
  | error e => simp [run_query_exec, hx]

theorem run_query_core_calls (exec : String → Bag → Except String (List Row))
    (intent : String) (cp : Bag) :
    (run_query_core (some exec) intent cp).2 = [get_query_for_intent intent cp] := by
  unfold run_query_core
  dsimp only
  rw [if_neg (gqfi_ne_empty intent cp)]
  exact run_query_exec_calls exec _ cp

/-! ### Occurrence analysis for joined query text

The fallback query is a join of clause strings.  A needle that contains
none of the separator characters can only occur inside one of the joined
parts: an occurrence crossing a boundary would have to contain the last
character of the left side or the first character of the right side. -/

theorem prefix_split_right (b : List Char) (c : Char) (hh : b.head? = some c) :
    ∀ (a n : List Char), c ∉ n → n <+: a ++ b → n <+: a := by
  intro a
  induction a with
  | nil =>
    intro n hc h
    cases n with
    | nil => exact List.nil_prefix
    | cons d n' =>
      exfalso
      rw [List.nil_append] at h
      cases b with
      | nil => cases hh
      | cons c0 b' =>
        have hc0 : c0 = c := by
          simp only [List.head?_cons, Option.some.injEq] at hh
          exact hh
        have hd := (List.cons_prefix_cons.1 h).1
        exact hc (by rw [← hc0, ← hd]; exact List.mem_cons_self _ _)
  | cons x a' ih =>
    intro n hc h
    cases n with
    | nil => exact List.nil_prefix
    | cons d n' =>
      rw [List.cons_append] at h
      obtain ⟨hd, hrest⟩ := List.cons_prefix_cons.1 h
      have h' := ih n' (fun hm => hc (List.mem_cons_of_mem _ hm)) hrest
      exact List.cons_prefix_cons.2 ⟨hd, h'⟩

theorem prefix_split_left (b : List Char) (c : Char) :
    ∀ (a n : List Char), a.getLast? = some c → c ∉ n → n <+: a ++ b → n <+: a := by
  intro a
  induction a with
  | nil =>
    intro n hl _ _
    cases hl
  | cons x a' ih =>
    intro n hl hc h
    cases n with
    | nil => exact List.nil_prefix
    | cons d n' =>
      rw [List.cons_append] at h
      obtain ⟨hd, hrest⟩ := List.cons_prefix_cons.1 h
      cases a' with
      | nil =>
        exfalso
        have hx : x = c := by
          simp only [List.getLast?_singleton, Option.some.injEq] at hl
          exact hl
        exact hc (by rw [← hx, ← hd]; exact List.mem_cons_self _ _)
      | cons y a'' =>
        have hl' : (y :: a'').getLast? = some c := by
          rw [← List.getLast?_cons_cons]
          exact hl
        have h' := ih n' hl' (fun hm => hc (List.mem_cons_of_mem _ hm)) hrest
        exact List.cons_prefix_cons.2 ⟨hd, h'⟩

theorem infix_split_right (b : List Char) (c : Char) (hh : b.head? = some c) :
    ∀ (a n : List Char), c ∉ n → n <:+: a ++ b → n <:+: a ∨ n <:+: b := by
  intro a
  induction a with
  | nil =>
    intro n _ h
    rw [List.nil_append] at h
    exact Or.inr h
  | cons x a' ih =>
    intro n hc h
    rw [List.cons_append] at h
    rcases List.infix_cons_iff.1 h with hp | hi
    · left
      have hpre := prefix_split_right b c hh (x :: a') n hc (by rwa [List.cons_append])
      exact hpre.isInfix
    · rcases ih n hc hi with h1 | h2
      · exact Or.inl (List.infix_cons h1)
      · exact Or.inr h2

theorem infix_split_left (b : List Char) (c : Char) :
    ∀ (a n : List Char), a.getLast? = some c → c ∉ n → n <:+: a ++ b →
      n <:+: a ∨ n <:+: b := by
  intro a
  induction a with
  | nil =>
    intro n hl _ _
    cases hl
  | cons x a' ih =>
    intro n hl hc h
    rw [List.cons_append] at h
    rcases List.infix_cons_iff.1 h with hp | hi
    · left
      have hpre := prefix_split_left b c (x :: a') n hl hc (by rwa [List.cons_append])
      exact hpre.isInfix
    · cases a' with
      | nil =>
        rw [List.nil_append] at hi
        exact Or.inr hi
      | cons y a'' =>
        have hl' : (y :: a'').getLast? = some c := by
          rw [← List.getLast?_cons_cons]
          exact hl
        rcases ih n hl' hc hi with h1 | h2
        · exact Or.inl (List.infix_cons h1)
        · exact Or.inr h2

theorem infix_joinWithL (sep : List Char) (c1 c2 : Char)
    (hh : sep.head? = some c1) (hl : sep.getLast? = some c2) (n : List Char)
    (hc1 : c1 ∉ n) (hc2 : c2 ∉ n) (hd : '$' ∈ n) (hds : '$' ∉ sep) :
    ∀ xs, n <:+: joinWithL sep xs → ∃ x ∈ xs, n <:+: x := by
  intro xs
  induction xs with
  | nil =>
    intro h
    rw [show joinWithL sep [] = [] from rfl, List.infix_nil] at h
    subst h
    cases hd
  | cons x rest ih =>
    cases rest with
    | nil =>
      intro h
      exact ⟨x, List.mem_cons_self _ _, h⟩
    | cons y rest' =>
      intro h
      rw [show joinWithL sep (x :: y :: rest') = x ++ sep ++ joinWithL sep (y :: rest')
            from rfl,
          List.append_assoc] at h
      rcases infix_split_right (sep ++ joinWithL sep (y :: rest')) c1
          (by rw [List.head?_append, hh]; rfl) x n hc1 h with h1 | h2
      · exact ⟨x, List.mem_cons_self _ _, h1⟩
      · rcases infix_split_left (joinWithL sep (y :: rest')) c2 sep n hl hc2 h2 with h3 | h4
        · exact absurd (h3.subset hd) hds
        · obtain ⟨z, hz, hzz⟩ := ih h4
          exact ⟨z, List.mem_cons_of_mem _ hz, hzz⟩

theorem joinWithStr_data (sep : String) (xs : List String) :
    (joinWithStr sep xs).data = joinWithL sep.data (xs.map String.data) := by
  induction xs with
  | nil => rfl
  | cons x rest ih =>
    cases rest with
    | nil => rfl
    | cons y rest' =>
      show (x ++ sep ++ joinWithStr sep (y :: rest')).data = _
      rw [String.data_append, String.data_append, ih]
      rfl

theorem mem_infix_joinWithL (sep x : List Char) :
    ∀ xs, x ∈ xs → x <:+: joinWithL sep xs := by
  intro xs
  induction xs with
  | nil =>
    intro h
    cases h
  | cons z rest ih =>
    intro h
    cases rest with
    | nil =>
      rcases List.mem_cons.1 h with heq | h'
      · subst heq
        exact List.infix_rfl
      · cases h'
    | cons y rest' =>
      rcases List.mem_cons.1 h with heq | h'
      · subst heq
        rw [show joinWithL sep (x :: y :: rest') = x ++ sep ++ joinWithL sep (y :: rest')
              from rfl,
            List.append_assoc]
        exact (List.prefix_append _ _).isInfix
      · rw [show joinWithL sep (z :: y :: rest') = z ++ sep ++ joinWithL sep (y :: rest')
              from rfl]
        exact (ih h').trans (List.suffix_append _ _).isInfix

theorem mem_char_joinWithL (sep : List Char) (ch : Char) :
    ∀ xs, ch ∈ joinWithL sep xs → ch ∈ sep ∨ ∃ x ∈ xs, ch ∈ x := by
  intro xs
  induction xs with
  | nil =>
    intro h
    cases h
  | cons x rest ih =>
    cases rest with
    | nil =>
      intro h
      exact Or.inr ⟨x, List.mem_cons_self _ _, h⟩
    | cons y rest' =>
      intro h
      rw [show joinWithL sep (x :: y :: rest') = x ++ sep ++ joinWithL sep (y :: rest')
            from rfl] at h
      rcases List.mem_append.1 h with h1 | h2
      · rcases List.mem_append.1 h1 with h3 | h4
        · exact Or.inr ⟨x, List.mem_cons_self _ _, h3⟩
        · exact Or.inl h4
      · rcases ih h2 with h3 | ⟨z, hz, hzz⟩
        · exact Or.inl h3
        · exact Or.inr ⟨z, List.mem_cons_of_mem _ hz, hzz⟩

/-! ### Characterizing the clauses of the fallback query -/

theorem mem_guard_single {p : Prop} [Decidable p] {x a : String}
    (h : x ∈ (if p then [a] else [])) : p ∧ x = a := by
  split at h
  · refine ⟨by assumption, by simpa using h⟩
  · simp at h

theorem mem_guard_list {p : Prop} [Decidable p] {x : String} {l : List String}
    (h : x ∈ (if p then l else [])) : p ∧ x ∈ l := by
  split at h
  · exact ⟨by assumption, h⟩
  · simp at h

theorem mem_ite_lists {p : Prop} [Decidable p] {x : String} {l1 l2 : List String}
    (h : x ∈ (if p then l1 else l2)) : x ∈ l1 ∨ x ∈ l2 := by
  split at h
  · exact Or.inl h
  · exact Or.inr h

theorem mem_fb_match_clauses (e : Bag) (x : String) (hx : x ∈ fb_match_clauses e) :
    x = fb_head e ∨ (bagHasKey e "origin" = true ∧ x = fb_originClause) ∨
      (bagHasKey e "dest" = true ∧ x = fb_destClause) := by
  unfold fb_match_clauses at hx
  rcases List.mem_append.1 hx with h | h
  · left
    simpa using h
  · obtain ⟨_, h⟩ := mem_guard_list h
    rcases List.mem_append.1 h with h | h
    · obtain ⟨ho, hx'⟩ := mem_guard_single h
      exact Or.inr (Or.inl ⟨ho, hx'⟩)
    · obtain ⟨hd, hx'⟩ := mem_guard_single h
      exact Or.inr (Or.inr ⟨hd, hx'⟩)

theorem mem_fb_where_clauses (e : Bag) (x : String) (hx : x ∈ fb_where_clauses e) :
    ∃ k ∈ fb_where_keys, bagHasKey e k = true ∧ x = fb_filter_clause k := by
  unfold fb_where_clauses at hx
  simp only [List.mem_append] at hx
  rcases hx with (((((((((hx | hx) | hx) | hx) | hx) | hx) | hx) | hx) | hx) | hx) | hx
  · obtain ⟨_, hx⟩ := mem_guard_list hx
    rcases List.mem_append.1 hx with hx | hx
    · obtain ⟨hg, rfl⟩ := mem_guard_single hx
      exact ⟨"generation", by decide, hg, rfl⟩
    · obtain ⟨hg, rfl⟩ := mem_guard_single hx
      exact ⟨"loyalty_tier", by decide, hg, rfl⟩
  · obtain ⟨_, hx⟩ := mem_guard_list hx
    obtain ⟨hg, rfl⟩ := mem_guard_single hx
    exact ⟨"fleet_type", by decide, hg, rfl⟩
  · obtain ⟨hg, rfl⟩ := mem_guard_single hx
    exact ⟨"class", by decide, hg, rfl⟩
  · obtain ⟨hg, rfl⟩ := mem_guard_single hx
    exact ⟨"min_delay", by decide, hg, rfl⟩
  · obtain ⟨hg, rfl⟩ := mem_guard_single hx
    exact ⟨"max_delay", by decide, hg, rfl⟩
  · obtain ⟨hg, rfl⟩ := mem_guard_single hx
    exact ⟨"min_food_satisfaction", by decide, hg, rfl⟩
  · obtain ⟨hg, rfl⟩ := mem_guard_single hx
    exact ⟨"max_food_satisfaction", by decide, hg, rfl⟩
  · obtain ⟨hg, rfl⟩ := mem_guard_single hx
    exact ⟨"min_miles", by decide, hg, rfl⟩
  · obtain ⟨hg, rfl⟩ := mem_guard_single hx
    exact ⟨"max_miles", by decide, hg, rfl⟩
  · obtain ⟨hg, rfl⟩ := mem_guard_single hx
    exact ⟨"min_legs", by decide, hg, rfl⟩
  · obtain ⟨hg, rfl⟩ := mem_guard_single hx
    exact ⟨"max_legs", by decide, hg, rfl⟩

theorem mem_fb_rf_pass (e : Bag) (f : String) (hf : f ∈ fb_rf_pass e) :
    f ∈ fb_rf_lits := by
  unfold fb_rf_pass at hf
  rcases mem_ite_lists hf with hf | hf
  · rcases List.mem_append.1 hf with hf | hf
    · rcases List.mem_append.1 hf with hf | hf
      · obtain ⟨_, rfl⟩ := mem_guard_single hf
        decide
      · obtain ⟨_, rfl⟩ := mem_guard_single hf
        decide
    · exact (by decide : ∀ g ∈ fb_rf_base, g ∈ fb_rf_lits) f hf
  · exact (by decide : ∀ g ∈ fb_rf_base, g ∈ fb_rf_lits) f hf

theorem mem_fb_rf_flight (e : Bag) (f : String) (hf : f ∈ fb_rf_flight e) :
    f ∈ fb_rf_lits := by
  unfold fb_rf_flight at hf
  rcases mem_ite_lists hf with hf | hf
  · rcases List.mem_append.1 hf with hf | hf
    · rcases List.mem_append.1 hf with hf | hf
      · rcases List.mem_append.1 hf with hf | hf
        · obtain ⟨_, rfl⟩ := mem_guard_single hf
          decide
        · obtain ⟨_, rfl⟩ := mem_guard_single hf
          decide
      · obtain ⟨_, rfl⟩ := mem_guard_single hf
        decide
    · exact mem_fb_rf_pass e f hf
  · exact mem_fb_rf_pass e f hf

theorem mem_fb_return_fields (e : Bag) (f : String) (hf : f ∈ fb_return_fields e) :
    f ∈ fb_rf_lits := by
  unfold fb_return_fields at hf
  rcases List.mem_append.1 hf with hf | hf
  · rcases List.mem_append.1 hf with hf | hf
    · rcases List.mem_append.1 hf with hf | hf
      · obtain ⟨_, rfl⟩ := mem_guard_single hf
        decide
      · exact mem_fb_rf_flight e f hf
    · obtain ⟨_, rfl⟩ := mem_guard_single hf
      decide
  · obtain ⟨_, rfl⟩ := mem_guard_single hf
    decide

theorem mem_fb_query_parts (e : Bag) (p : String) (hp : p ∈ fb_query_parts e) :
    p = joinWithStr "\n" (fb_match_clauses e) ∨
    ((fb_where_clauses e).isEmpty = false ∧
      p = "WHERE " ++ joinWithStr " AND " (fb_where_clauses e)) ∨
    p = "RETURN " ++ joinWithStr ", " (fb_return_fields e) ∨
    p = "ORDER BY journey_count DESC LIMIT 50" := by
  unfold fb_query_parts at hp
  rcases List.mem_append.1 hp with hp | hp
  · rcases List.mem_append.1 hp with hp | hp
    · left
      simpa using hp
    · right; left
      cases hie : (fb_where_clauses e).isEmpty with
      | true =>
        rw [hie] at hp
        simp at hp
      | false =>
        rw [hie] at hp
        exact ⟨rfl, by simpa using hp⟩
  · rcases List.mem_cons.1 hp with hp | hp
    · exact Or.inr (Or.inr (Or.inl hp))
    · exact Or.inr (Or.inr (Or.inr (by simpa using hp)))

/-! ### Dollar-sign and separator facts -/

theorem dollar_mem_needle (k : String) : '$' ∈ ("$" ++ k).data := by
  rw [String.data_append]
  exact List.mem_append_left _ (by decide)

theorem not_dollar_fb_head (e : Bag) : '$' ∉ (fb_head e).data := by
  unfold fb_head
  dsimp only
  repeat' split
  all_goals decide

theorem rf_lits_no_dollar : ∀ f ∈ fb_rf_lits, '$' ∉ f.data := by decide

theorem not_dollar_return_line (e : Bag) :
    '$' ∉ ("RETURN " ++ joinWithStr ", " (fb_return_fields e)).data := by
  rw [String.data_append]
  intro hmem
  rcases List.mem_append.1 hmem with h | h
  · exact absurd h (by decide)
  · rw [joinWithStr_data] at h
    rcases mem_char_joinWithL _ _ _ h with h | ⟨x, hx, hxx⟩
    · exact absurd h (by decide)
    · obtain ⟨f, hf, rfl⟩ := List.mem_map.1 hx
      exact rf_lits_no_dollar f (mem_fb_return_fields e f hf) hxx

theorem key_chars :
    ∀ k ∈ key_entities, '\n' ∉ ("$" ++ k).data ∧ ' ' ∉ ("$" ++ k).data := by decide

theorem key_pair :
    ∀ k ∈ key_entities, ∀ k' ∈ key_entities, k ≠ k' →
      containsSub (fb_filter_clause k') ("$" ++ k) = false := by decide

theorem fb_where_keys_sub : ∀ k ∈ fb_where_keys, k ∈ key_entities := by decide

/-! ### The two directions of the fallback guarantee -/

theorem where_clause_mem (e : Bag) (k : String) (hk : k ∈ fb_where_keys)
    (hhas : bagHasKey e k = true) : fb_filter_clause k ∈ fb_where_clauses e := by
  fin_cases hk <;>
    simp [fb_where_clauses, fb_hasPass, fb_hasFlight, fb_filter_clause, hhas]

theorem fallback_where_infix (e : Bag) (k : String) (hk : k ∈ fb_where_keys)
    (hhas : bagHasKey e k = true) :
    (fb_filter_clause k).data <:+: (_build_fallback_query e).data := by
  have hmem := where_clause_mem e k hk hhas
  have hne : (fb_where_clauses e).isEmpty = false := by
    cases hfl : fb_where_clauses e with
    | nil => rw [hfl] at hmem; cases hmem
    | cons a l => rfl
  have h1 : (fb_filter_clause k).data <:+: (joinWithStr " AND " (fb_where_clauses e)).data := by
    rw [joinWithStr_data]
    exact mem_infix_joinWithL _ _ _ (List.mem_map_of_mem _ hmem)
  have h2 : (fb_filter_clause k).data
      <:+: ("WHERE " ++ joinWithStr " AND " (fb_where_clauses e)).data := by
    rw [String.data_append]
    exact h1.trans (List.suffix_append _ _).isInfix
  have h3 : ("WHERE " ++ joinWithStr " AND " (fb_where_clauses e)) ∈ fb_query_parts e := by
    unfold fb_query_parts
    rw [hne]
    simp
  have h4 : ("WHERE " ++ joinWithStr " AND " (fb_where_clauses e)).data
      <:+: (_build_fallback_query e).data := by
    unfold _build_fallback_query
    rw [joinWithStr_data "\n" (fb_query_parts e)]
    exact mem_infix_joinWithL _ _ _ (List.mem_map_of_mem _ h3)
  exact h2.trans h4

theorem fallback_route_infix (e : Bag) (k : String)
    (hk : k = "origin" ∨ k = "dest") (hhas : bagHasKey e k = true) :
    (fb_filter_clause k).data <:+: (_build_fallback_query e).data := by
  have hmem : fb_filter_clause k ∈ fb_match_clauses e := by
    rcases hk with rfl | rfl <;>
      simp [fb_match_clauses, fb_hasFlight, fb_filter_clause, hhas]
  have h1 : (fb_filter_clause k).data
      <:+: (joinWithStr "\n" (fb_match_clauses e)).data := by
    rw [joinWithStr_data]
    exact mem_infix_joinWithL _ _ _ (List.mem_map_of_mem _ hmem)
  have h3 : joinWithStr "\n" (fb_match_clauses e) ∈ fb_query_parts e := by
    unfold fb_query_parts
    simp
  have h4 : (joinWithStr "\n" (fb_match_clauses e)).data
      <:+: (_build_fallback_query e).data := by
    unfold _build_fallback_query
    rw [joinWithStr_data "\n" (fb_query_parts e)]
    exact mem_infix_joinWithL _ _ _ (List.mem_map_of_mem _ h3)
  exact h1.trans h4

theorem fallback_complete (e : Bag) (k : String) (hk : k ∈ key_entities)
    (hhas : bagHasKey e k = true) :
    containsSub (_build_fallback_query e) (fb_filter_clause k) = true := by
  apply decide_eq_true
  have hor : k = "origin" ∨ k = "dest" ∨ k ∈ fb_where_keys := by
    fin_cases hk <;> decide
  rcases hor with rfl | rfl | hw
  · exact fallback_route_infix e _ (Or.inl rfl) hhas
  · exact fallback_route_infix e _ (Or.inr rfl) hhas
  · exact fallback_where_infix e k hw hhas

theorem fallback_sound (e : Bag) (k : String) (hk : k ∈ key_entities)
    (hcont : containsSub (_build_fallback_query e) ("$" ++ k) = true) :
    bagHasKey e k = true := by
  have hchar := key_chars k hk
  have hdol : '$' ∈ ("$" ++ k).data := dollar_mem_needle k
  unfold containsSub at hcont
  have h0 : ("$" ++ k).data <:+: (_build_fallback_query e).data := of_decide_eq_true hcont
  unfold _build_fallback_query at h0
  rw [joinWithStr_data] at h0
  obtain ⟨pd, hpd, hinf⟩ := infix_joinWithL ("\n").data '\n' '\n' rfl rfl _
    hchar.1 hchar.1 hdol (by decide) _ h0
  obtain ⟨p, hp, rfl⟩ := List.mem_map.1 hpd
  rcases mem_fb_query_parts e p hp with rfl | ⟨hne, rfl⟩ | rfl | rfl
  · -- inside the joined MATCH clauses
    rw [joinWithStr_data] at hinf
    obtain ⟨cd, hcd, hinf2⟩ := infix_joinWithL ("\n").data '\n' '\n' rfl rfl _
      hchar.1 hchar.1 hdol (by decide) _ hinf
    obtain ⟨c, hc, rfl⟩ := List.mem_map.1 hcd
    rcases mem_fb_match_clauses e c hc with rfl | ⟨ho, rfl⟩ | ⟨hd, rfl⟩
    · exact absurd (hinf2.subset hdol) (not_dollar_fb_head e)
    · by_cases hko : k = "origin"
      · subst hko
        exact ho
      · exfalso
        have hfalse : containsSub (fb_filter_clause "origin") ("$" ++ k) = false :=
          key_pair k hk "origin" (by decide) hko
        unfold containsSub at hfalse
        rw [decide_eq_false_iff_not] at hfalse
        exact hfalse hinf2
    · by_cases hkd : k = "dest"
      · subst hkd
        exact hd
      · exfalso
        have hfalse : containsSub (fb_filter_clause "dest") ("$" ++ k) = false :=
          key_pair k hk "dest" (by decide) hkd
        unfold containsSub at hfalse
        rw [decide_eq_false_iff_not] at hfalse
        exact hfalse hinf2
  · -- inside the WHERE line
    rw [String.data_append] at hinf
    rcases infix_split_left (joinWithStr " AND " (fb_where_clauses e)).data ' '
        ("WHERE ").data _ (by decide) hchar.2 hinf with h1 | h2
    · exact absurd (h1.subset hdol) (by decide)
    · rw [joinWithStr_data] at h2
      obtain ⟨cd, hcd, hinf2⟩ := infix_joinWithL (" AND ").data ' ' ' ' rfl rfl _
        hchar.2 hchar.2 hdol (by decide) _ h2
      obtain ⟨c, hc, rfl⟩ := List.mem_map.1 hcd
      obtain ⟨k', hk', hk'has, rfl⟩ := mem_fb_where_clauses e c hc
      by_cases hkk : k = k'
      · subst hkk
        exact hk'has
      · exfalso
        have hfalse : containsSub (fb_filter_clause k') ("$" ++ k) = false :=
          key_pair k hk k' (fb_where_keys_sub k' hk') hkk
        unfold containsSub at hfalse
        rw [decide_eq_false_iff_not] at hfalse
        exact hfalse hinf2
  · exact absurd (hinf.subset hdol) (not_dollar_return_line e)
  · exact absurd (hinf.subset hdol) (by decide)

theorem containsSub_trans (q a b : String)
    (h1 : containsSub q a = true) (h2 : containsSub a b = true) :
    containsSub q b = true := by
  unfold containsSub at *
  rw [decide_eq_true_iff] at *
  exact h2.trans h1

theorem clause_refs_key :
    ∀ k ∈ key_entities, containsSub (fb_filter_clause k) ("$" ++ k) = true := by decide

/-! ### The parameter merge of `process_query` never overwrites -/

theorem mergeNew_preserves (b : Bag) (a : Bag) (k : String) (v : Value)
    (h : bagGet a k = some v) : bagGet (mergeNew a b) k = some v := by
  induction b generalizing a with
  | nil => exact h
  | cons p rest ih =>
    obtain ⟨k0, v0⟩ := p
    by_cases h0 : bagHasKey a k0 = true
    · rw [mergeNew, if_pos h0]
      exact ih a h
    · rw [mergeNew, if_neg h0]
      apply ih
      have hkk : k ≠ k0 := by
        intro he
        subst he
        unfold bagHasKey at h0
        rw [h] at h0
        exact h0 rfl
      rw [bagGet_set_ne a k0 k v0 hkk]
      exact h

/-!
## The claims
-/

/-- C4 (confirmed).  Normalization is idempotent: for every well-formed,
string-valued entity bag `b`, running `normalize_entities` on the output of
`normalize_entities` changes nothing — the key renaming, generation
de-pluralization and loyalty-tier canonicalization are all fixpoints on an
already-normalized bag. -/
theorem C4_normalize_idempotent (b : Bag) (hwf : BagWF b) (hall : BagAllStr b) :
    (normalize_entities b).bind normalize_entities = normalize_entities b := by
  obtain ⟨b1, c, hgen, htier, hnorm, hwf1, hall1, hwfc, hallc, hget1, hhk1, hgetc,
    hhkc, hfixg, hfixt⟩ := normalize_spec b hwf hall
  have hc1 : bagHasKey c "origin_code" = false := by
    rw [hhkc "origin_code"]; exact renameAll_not_origin_code b1 hwf1
  have hc2 : bagHasKey c "dest_code" = false := by
    rw [hhkc "dest_code"]; exact renameAll_not_dest_code b1 hwf1
  have hc3 : bagHasKey c "vip_id" = false := by
    rw [hhkc "vip_id"]; exact renameAll_not_vip_id b1 hwf1
  have hc4 : bagHasKey c "loyalty_level" = false := by
    rw [hhkc "loyalty_level"]; exact renameAll_not_loyalty_level b1 hwf1
  have hc5 : bagHasKey c "passenger_class" = false := by
    rw [hhkc "passenger_class"]; exact renameAll_not_passenger_class b1 hwf1
  have hsecond : normalize_entities c = .ok c := by
    unfold normalize_entities
    rw [genStep_nop c hallc hfixg]
    show tierStep (renameAll c) = .ok c
    rw [renameAll_id c hc1 hc2 hc3 hc4 hc5]
    exact tierStep_nop c hallc hfixt
  rw [hnorm]
  show normalize_entities c = .ok c
  exact hsecond

/-- Witness for C4 at a concrete bag. -/
theorem C4_witness :
    BagWF [("generation", Value.str "Boomers"), ("vip_id", Value.str "ABC123")] ∧
    BagAllStr [("generation", Value.str "Boomers"), ("vip_id", Value.str "ABC123")] ∧
    (normalize_entities [("generation", Value.str "Boomers"), ("vip_id", Value.str "ABC123")]).bind
        normalize_entities
      = normalize_entities [("generation", Value.str "Boomers"), ("vip_id", Value.str "ABC123")] :=
  ⟨by decide, by decide, C4_normalize_idempotent _ (by decide) (by decide)⟩

/-- C9 counterexample.  The claim says that when both an alternate key and
its canonical key are present the canonical key's original value is kept;
the code does `clean['origin'] = clean.pop('origin_code')`, so the
alternate's value overwrites it: normalizing
`{origin: "BBB", origin_code: "AAA"}` yields `origin = "AAA"`, not `"BBB"`.
The claim also lists `destination`→`dest` among the renamings; the code has
no such renaming, and a `destination` key passes through untouched. -/
theorem C9_counterexample :
    normalize_entities [("origin", Value.str "BBB"), ("origin_code", Value.str "AAA")]
      = .ok [("origin", Value.str "AAA")] ∧
    normalize_entities [("destination", Value.str "JFK")]
      = .ok [("destination", Value.str "JFK")] :=
  ⟨rfl, rfl⟩

/-- C9 (amended).  Key renaming rewrites each of the five alternate keys
`origin_code`→`origin`, `dest_code`→`dest`, `vip_id`→`record_locator`,
`loyalty_level`→`loyalty_tier`, `passenger_class`→`class` to its canonical
key (a `loyalty_level` value is additionally tier-canonicalized); when both
the alternate and the canonical key are present, the alternate key's value
overwrites the canonical key's value (the canonical value is discarded).
`destination` is not an alternate key and its entry is left untouched. -/
theorem C9_amended_rename (b c : Bag) (hwf : BagWF b) (hall : BagAllStr b)
    (hnorm : normalize_entities b = .ok c) :
    (bagHasKey b "origin_code" = true →
      bagHasKey c "origin_code" = false ∧ bagGet c "origin" = bagGet b "origin_code") ∧
    (bagHasKey b "dest_code" = true →
      bagHasKey c "dest_code" = false ∧ bagGet c "dest" = bagGet b "dest_code") ∧
    (bagHasKey b "vip_id" = true →
      bagHasKey c "vip_id" = false ∧ bagGet c "record_locator" = bagGet b "vip_id") ∧
    (bagHasKey b "loyalty_level" = true →
      bagHasKey c "loyalty_level" = false ∧
      ∀ s, bagGet b "loyalty_level" = some (Value.str s) →
        bagGet c "loyalty_tier" = some (Value.str (tierFix s))) ∧
    (bagHasKey b "passenger_class" = true →
      bagHasKey c "passenger_class" = false ∧ bagGet c "class" = bagGet b "passenger_class") ∧
    bagGet c "destination" = bagGet b "destination" := by
  obtain ⟨b1, c', hgen, htier, hnorm', hwf1, hall1, hwfc, hallc, hget1, hhk1, hgetc,
    hhkc, hfixg, hfixt⟩ := normalize_spec b hwf hall
  have hcc : c' = c := by
    rw [hnorm'] at hnorm
    injection hnorm
  subst hcc
  refine ⟨?_, ?_, ?_, ?_, ?_, ?_⟩
  · intro hb
    obtain ⟨v, hv⟩ := Option.isSome_iff_exists.1 hb
    have hv1 : bagGet b1 "origin_code" = some v := by
      rw [hget1 "origin_code" (by decide)]; exact hv
    refine ⟨?_, ?_⟩
    · rw [hhkc "origin_code"]; exact renameAll_not_origin_code b1 hwf1
    · rw [hgetc "origin" (by decide), renameAll_get_origin_of b1 v hv1, hv]
  · intro hb
    obtain ⟨v, hv⟩ := Option.isSome_iff_exists.1 hb
    have hv1 : bagGet b1 "dest_code" = some v := by
      rw [hget1 "dest_code" (by decide)]; exact hv
    refine ⟨?_, ?_⟩
    · rw [hhkc "dest_code"]; exact renameAll_not_dest_code b1 hwf1
    · rw [hgetc "dest" (by decide), renameAll_get_dest_of b1 v hv1, hv]
  · intro hb
    obtain ⟨v, hv⟩ := Option.isSome_iff_exists.1 hb
    have hv1 : bagGet b1 "vip_id" = some v := by
      rw [hget1 "vip_id" (by decide)]; exact hv
    refine ⟨?_, ?_⟩
    · rw [hhkc "vip_id"]; exact renameAll_not_vip_id b1 hwf1
    · rw [hgetc "record_locator" (by decide), renameAll_get_rl_of b1 v hv1, hv]
  · intro hb
    refine ⟨?_, ?_⟩
    · rw [hhkc "loyalty_level"]; exact renameAll_not_loyalty_level b1 hwf1
    · intro s hs
      have hv1 : bagGet b1 "loyalty_level" = some (Value.str s) := by
        rw [hget1 "loyalty_level" (by decide)]; exact hs
      have hv2 : bagGet (renameAll b1) "loyalty_tier" = some (Value.str s) :=
        renameAll_get_lt_of b1 _ hv1
      have := tierStep_str (renameAll b1) s hv2
      rw [htier] at this
      injection this with this
      rw [this, bagGet_set_self]
  · intro hb
    obtain ⟨v, hv⟩ := Option.isSome_iff_exists.1 hb
    have hv1 : bagGet b1 "passenger_class" = some v := by
      rw [hget1 "passenger_class" (by decide)]; exact hv
    refine ⟨?_, ?_⟩
    · rw [hhkc "passenger_class"]; exact renameAll_not_passenger_class b1 hwf1
    · rw [hgetc "class" (by decide), renameAll_get_class_of b1 v hv1, hv]
  · rw [hgetc "destination" (by decide), renameAll_get_destination b1,
        hget1 "destination" (by decide)]

/-- Witness for C9 (amended) at a concrete collision bag. -/
theorem C9_witness :
    bagHasKey [("origin", Value.str "BBB"), ("origin_code", Value.str "AAA")] "origin_code" = true ∧
    (bagHasKey [("origin", Value.str "AAA")] "origin_code" = false ∧
     bagGet [("origin", Value.str "AAA")] "origin"
       = bagGet [("origin", Value.str "BBB"), ("origin_code", Value.str "AAA")] "origin_code") :=
  ⟨by decide,
   (C9_amended_rename [("origin", Value.str "BBB"), ("origin_code", Value.str "AAA")]
      [("origin", Value.str "AAA")] (by decide) (by decide) rfl).1 (by decide)⟩

/-- C1 (confirmed).  The completeness check of `get_query_for_intent`: when a
canned template is the candidate, it is returned only if every key of the
bag that lies in the fixed `key_entities` vocabulary appears as a bound
parameter `$key` in its text ((the `$_key` disjunct of the code never fires
on a canned template, by `allTemplates_props`)); if some such key is not
referenced, the engine instead returns the fallback synthesis. -/
theorem C1_completeness_gate (i : String) (b : Bag) (q : String)
    (h : _get_specific_query i b = some q) :
    ((∀ k ∈ key_entities, bagHasKey b k = true → containsSub q ("$" ++ k) = true) →
      get_query_for_intent i b = q) ∧
    ((∃ k ∈ key_entities, bagHasKey b k = true ∧ containsSub q ("$" ++ k) = false) →
      get_query_for_intent i b = _build_fallback_query b) := by
  have hused : ∀ k, (containsSub q ("$" ++ k) || containsSub q ("$_" ++ k))
      = containsSub q ("$" ++ k) := fun k => spq_usedRef i b q k h
  constructor
  · intro hall
    have hfe : (key_entities.filter (fun k => bagHasKey b k)).filter
        (fun k => containsSub q ("$" ++ k) || containsSub q ("$_" ++ k))
        = key_entities.filter (fun k => bagHasKey b k) := by
      apply List.filter_eq_self.mpr
      intro x hx
      rw [List.mem_filter] at hx
      rw [hused x]
      exact hall x hx.1 hx.2
    unfold get_query_for_intent
    rw [h]
    dsimp only
    rw [hfe]
    simp
  · rintro ⟨k, hk, hhas, hnot⟩
    have hkd : k ∈ key_entities.filter (fun k => bagHasKey b k) :=
      List.mem_filter.2 ⟨hk, hhas⟩
    have hku : k ∉ (key_entities.filter (fun k => bagHasKey b k)).filter
        (fun k => containsSub q ("$" ++ k) || containsSub q ("$_" ++ k)) := by
      intro hmem
      rw [List.mem_filter] at hmem
      have hp := hmem.2
      rw [hused k, hnot] at hp
      cases hp
    have hne : ¬ (key_entities.filter (fun k => bagHasKey b k)
        = (key_entities.filter (fun k => bagHasKey b k)).filter
            (fun k => containsSub q ("$" ++ k) || containsSub q ("$_" ++ k))) := by
      intro he
      exact hku (he ▸ hkd)
    have hnem : (key_entities.filter (fun k => bagHasKey b k)).isEmpty = false := by
      cases hfl : key_entities.filter (fun k => bagHasKey b k) with
      | nil => rw [hfl] at hkd; cases hkd
      | cons a l => rfl
    unfold get_query_for_intent
    rw [h]
    dsimp only
    rw [decide_eq_false hne, hnem]
    rfl

/-- Witness for C1: with `analyze_delays` and bag `{min_delay}` the canned
query is kept (its only vocabulary key is `$min_delay`-referenced); adding
`fleet_type` makes the same candidate fail the check and the fallback is
returned. -/
theorem C1_witness :
    get_query_for_intent "analyze_delays" [("min_delay", Value.intV 30)] = Q.ad_minDelay ∧
    get_query_for_intent "analyze_delays"
        [("fleet_type", Value.str "777"), ("min_delay", Value.intV 30)]
      = _build_fallback_query [("fleet_type", Value.str "777"), ("min_delay", Value.intV 30)] :=
  ⟨(C1_completeness_gate "analyze_delays" [("min_delay", Value.intV 30)] Q.ad_minDelay rfl).1
      (by decide),
   (C1_completeness_gate "analyze_delays"
      [("fleet_type", Value.str "777"), ("min_delay", Value.intV 30)] Q.ad_minDelay rfl).2
      ⟨"fleet_type", by decide, by decide, by decide⟩⟩

/-- C2 (code bug).  The claim says candidate templates are tried
most-specific first; in the code's if-chains the one-slot `loyalty_tier`
test (line 521) precedes the two-slot `generation`+`loyalty_tier` template
(line 529), and the `origin`+`dest` test (line 150) precedes the three-slot
`origin`+`dest`+`max_legs` template (line 163), making those more specific
templates unreachable.  On the claim's own example bags the less specific
template is the candidate, it fails the completeness check, and the engine
falls back to the dynamic query. -/
theorem C2_specificity_codebug :
    _get_specific_query "analyze_passengers"
        [("generation", Value.str "Boomer"), ("loyalty_tier", Value.str "premier gold")]
      = some Q.ap_loy ∧
    Q.ap_loy ≠ Q.ap_gen_loy ∧
    get_query_for_intent "analyze_passengers"
        [("generation", Value.str "Boomer"), ("loyalty_tier", Value.str "premier gold")]
      = _build_fallback_query
          [("generation", Value.str "Boomer"), ("loyalty_tier", Value.str "premier gold")] ∧
    _get_specific_query "search_network"
        [("origin", Value.str "LAX"), ("dest", Value.str "SFO"), ("max_legs", Value.intV 1)]
      = some Q.sn_od ∧
    Q.sn_od ≠ Q.sn_od_maxLegs ∧
    get_query_for_intent "search_network"
        [("origin", Value.str "LAX"), ("dest", Value.str "SFO"), ("max_legs", Value.intV 1)]
      = _build_fallback_query
          [("origin", Value.str "LAX"), ("dest", Value.str "SFO"), ("max_legs", Value.intV 1)] :=
  ⟨rfl, by decide, by decide, rfl, by decide, by decide⟩

/-- C3 counterexample.  For the out-of-vocabulary intent `"book_flight"`,
`run_query` is not a no-op: the fallback query is constructed and one store
call is issued (the call log has length 1, not 0). -/
theorem C3_counterexample :
    run_query (some (fun _ _ => .ok [])) "book_flight" []
      = .ok (RunResult.rows [] (_build_fallback_query []), [_build_fallback_query []]) ∧
    "book_flight" ∉ get_available_intents :=
  ⟨rfl, by decide⟩

/-- C3 (amended).  An intent label outside the known intent set matches no
canned template, but resolution is not aborted: `get_query_for_intent`
returns the fallback synthesis, and whenever `run_query` completes without
an exception with a driver present it issues exactly one store call —
regardless of the intent.  (The zero-store-call no-op for unknown labels
exists only upstream, in `process_query`, which returns early when the
classifier output is normalized to "unknown".) -/
theorem C3_amended_unknown_intent :
    (∀ intent, intent ∉ get_available_intents → ∀ b : Bag,
      _get_specific_query intent b = Option.none ∧
      get_query_for_intent intent b = _build_fallback_query b) ∧
    (∀ exec intent b res, run_query (some exec) intent b = .ok res → res.2.length = 1) := by
  constructor
  · intro intent hmem b
    simp only [get_available_intents, List.mem_cons, List.not_mem_nil, or_false,
      not_or] at hmem
    obtain ⟨h1, h2, h3, h4, h5, h6, h7, h8, h9, h10⟩ := hmem
    have hspq : _get_specific_query intent b = Option.none := by
      unfold _get_specific_query
      rw [if_neg h3, if_neg h2, if_neg h1, if_neg h4, if_neg h5, if_neg h6,
          if_neg h9, if_neg h10, if_neg h7, if_neg h8]
    refine ⟨hspq, ?_⟩
    unfold get_query_for_intent
    rw [hspq]
  · intro exec intent b res hrun
    obtain ⟨nb, hnb, hres⟩ := run_query_ok _ intent b res hrun
    rw [hres, run_query_core_calls]
    rfl

/-- Witness for C3 (amended) at intent `"book_flight"`. -/
theorem C3_witness :
    "book_flight" ∉ get_available_intents ∧
    _get_specific_query "book_flight" [] = Option.none ∧
    get_query_for_intent "book_flight" [] = _build_fallback_query [] ∧
    run_query (some (fun _ _ => .ok [])) "book_flight" []
      = .ok (RunResult.rows [] (_build_fallback_query []), [_build_fallback_query []]) ∧
    ((RunResult.rows [] (_build_fallback_query []), [_build_fallback_query []]) :
        RunResult × List String).2.length = 1 :=
  ⟨by decide, (C3_amended_unknown_intent.1 "book_flight" (by decide) []).1,
   (C3_amended_unknown_intent.1 "book_flight" (by decide) []).2,
   rfl,
   C3_amended_unknown_intent.2 (fun _ _ => .ok []) "book_flight" []
     (RunResult.rows [] (_build_fallback_query []), [_build_fallback_query []]) rfl⟩

/-- C5 (code bug).  The claim (and the spec's propagation policy) says
normalization and parameter inference never fail outward.
`infer_semantic_parameters` looks up `SEMANTIC_THRESHOLDS["food_satisfaction"]["average"]`
for the qualitative terms "average rating"/"average food"/"okay food", but
the lexicon names that band "mid" (and the in-code LLM prompt documents
average/okay → 3..3), so the lookup raises `KeyError('average')`.  Also,
`normalize_entities` calls `.lower()` on the raw value before `run_query`
filters out `None`s, so a `None`-valued `generation` raises
`AttributeError`. -/
theorem C5_inference_raises :
    infer_semantic_parameters "average rating" = .error (PyErr.keyError "average") ∧
    infer_semantic_parameters "okay food" = .error (PyErr.keyError "average") ∧
    normalize_entities [("generation", Value.null)] = .error PyErr.attributeError :=
  ⟨rfl, rfl, rfl⟩

/-- C8 counterexample.  Serialization is one level deep: a store-native node
nested inside a returned map survives serialization, so the claim that no
store-native wrapper remains at any nesting depth is false. -/
theorem C8_counterexample :
    serializeResults
        [[("full_record",
           Val.dict [("passenger", Val.node [("record_locator", Val.prim "EPXXW8")])])]]
      = [[("full_record",
           Val.dict [("passenger", Val.node [("record_locator", Val.prim "EPXXW8")])])]] ∧
    hasNodeDeepResults
        (serializeResults
          [[("full_record",
             Val.dict [("passenger", Val.node [("record_locator", Val.prim "EPXXW8")])])]])
      = true :=
  ⟨rfl, rfl⟩

/-- C8 (amended).  Serialization converts each top-level column value that
exposes a composite `.items()` shape into a plain map of its properties
WITHOUT recursing — the nested values are taken over unchanged — and passes
scalars through; consequently no store-native wrapper remains at the top
level of any column, but wrappers nested deeper survive. -/
theorem C8_amended_serialization :
    (∀ s, serializeValue (Val.prim s) = Val.prim s) ∧
    (∀ ps, serializeValue (Val.node ps) = Val.dict ps) ∧
    (∀ ps, serializeValue (Val.dict ps) = Val.dict ps) ∧
    (∀ v, isTopNode (serializeValue v) = false) ∧
    (∀ rows, serializeResults rows
      = rows.map (fun r => r.map (fun p => (p.1, serializeValue p.2)))) :=
  ⟨fun _ => rfl, fun _ => rfl, fun _ => rfl,
   fun v => by cases v <;> rfl, fun _ => rfl⟩

/-- C10 (confirmed).  Query construction is total: `get_query_for_intent`
always returns a non-empty string (for the empty bag the fallback emits
exactly the base Journey aggregate query), so `run_query`'s
"Could not construct query" branch is unreachable — every exception-free
result of `run_query` is a rows/driver-error/database-error outcome, never
the construct error. -/
theorem C10_construction_total :
    (∀ intent b, get_query_for_intent intent b ≠ "") ∧
    (∀ driver intent b res, run_query driver intent b = .ok res →
      res.1.isConstructError = false) ∧
    _build_fallback_query []
      = "MATCH (j:Journey)\nRETURN count(j) AS journey_count, avg(j.food_satisfaction_score) AS avg_food_satisfaction, avg(j.arrival_delay_minutes) AS avg_delay\nORDER BY journey_count DESC LIMIT 50" := by
  refine ⟨gqfi_ne_empty, ?_, by decide⟩
  intro driver intent b res hrun
  obtain ⟨nb, hnb, hres⟩ := run_query_ok driver intent b res hrun
  rw [hres]
  exact run_query_core_not_CE driver intent _

/-- C6 (confirmed).  Explicit-numeric precedence: the regex pass on
"delay over 90 minutes" yields `min_delay = 90`, and a value produced by the
explicit-numeric pass is never overwritten — whenever the parameter pipeline
of `process_query` completes, every key bound by the regex pass keeps the
regex pass's value (the semantic pass only fills absent keys, and the
external LLM pass runs only when the bag is still empty). -/
theorem C6_explicit_precedence :
    extract_parameters_from_text "delay over 90 minutes" = [("min_delay", Value.intV 90)] ∧
    (∀ (u : String) (llm : Bag) (k : String) (v : Value) (out : Bag),
      bagGet (extract_parameters_from_text u) k = some v →
      process_query_params u llm = .ok out →
      bagGet out k = some v) := by
  refine ⟨by decide, ?_⟩
  intro u llm k v out h1 h2
  unfold process_query_params at h2
  cases hsem : infer_semantic_parameters u with
  | error e =>
    rw [hsem] at h2
    exact Except.noConfusion h2
  | ok sem =>
    rw [hsem] at h2
    have hmerged : bagGet (mergeNew (extract_parameters_from_text u) sem) k = some v :=
      mergeNew_preserves sem _ k v h1
    have hempty : (mergeNew (extract_parameters_from_text u) sem).isEmpty = false := by
      cases hm : mergeNew (extract_parameters_from_text u) sem with
      | nil => rw [hm] at hmerged; exact Option.noConfusion hmerged
      | cons p r => rfl
    replace h2 :
        (if (needs_llm_check u && (mergeNew (extract_parameters_from_text u) sem).isEmpty) = true
         then (pure (mergeNew (mergeNew (extract_parameters_from_text u) sem) llm) :
                Except PyErr Bag)
         else pure (mergeNew (extract_parameters_from_text u) sem)) = Except.ok out := h2
    rw [hempty, Bool.and_false] at h2
    simp only [Bool.false_eq_true, if_false] at h2
    have hout : mergeNew (extract_parameters_from_text u) sem = out := Except.ok.inj h2
    rw [← hout]
    exact hmerged

/-- Witness for C6: on "delay over 90 minutes" with a conflicting LLM reply,
the pipeline keeps the regex pass's `min_delay = 90`. -/
theorem C6_witness :
    bagGet (extract_parameters_from_text "delay over 90 minutes") "min_delay"
      = some (Value.intV 90) ∧
    process_query_params "delay over 90 minutes" [("min_delay", Value.intV 999)]
      = .ok [("min_delay", Value.intV 90)] ∧
    bagGet [("min_delay", Value.intV 90)] "min_delay" = some (Value.intV 90) :=
  ⟨by decide, rfl,
   C6_explicit_precedence.2 "delay over 90 minutes" [("min_delay", Value.intV 999)]
     "min_delay" (Value.intV 90) [("min_delay", Value.intV 90)] (by decide) rfl⟩

/-- Witness for C10 at a concrete run. -/
theorem C10_witness :
    run_query (some (fun _ _ => .ok [])) "analyze_delays" [("min_delay", Value.intV 30)]
      = .ok (RunResult.rows [] Q.ad_minDelay, [Q.ad_minDelay]) ∧
    (RunResult.rows [] Q.ad_minDelay).isConstructError = false :=
  ⟨rfl,
   C10_construction_total.2.1 (some (fun _ _ => .ok [])) "analyze_delays"
     [("min_delay", Value.intV 30)] (RunResult.rows [] Q.ad_minDelay, [Q.ad_minDelay])
     rfl⟩

/-- C7 (confirmed).  Fallback soundness and completeness: for every bag and
every key of the fixed vocabulary, the fallback query text references the
bound parameter `$key` exactly when the key is present in the bag (so no
parameter is unbound and no present key is dropped), and for every present
key the text contains that key's filter clause (equality, CONTAINS,
airport-endpoint MATCH, or >=/<= range comparison). -/
theorem C7_fallback (e : Bag) (k : String) (hk : k ∈ key_entities) :
    (containsSub (_build_fallback_query e) ("$" ++ k) = true ↔ bagHasKey e k = true) ∧
    (bagHasKey e k = true →
      containsSub (_build_fallback_query e) (fb_filter_clause k) = true) := by
  refine ⟨⟨fallback_sound e k hk, ?_⟩, fallback_complete e k hk⟩
  intro hhas
  exact containsSub_trans _ _ _ (fallback_complete e k hk hhas) (clause_refs_key k hk)

/-- Witness for C7 on the bag `\x7bgeneration: Boomer, min_delay: 30\x7d`:
`$generation` is referenced and its equality clause emitted, while the
absent `$origin` is not referenced. -/
theorem C7_witness :
    ("generation" ∈ key_entities ∧
      ((containsSub
          (_build_fallback_query [("generation", Value.str "Boomer"), ("min_delay", Value.intV 30)])
          ("$" ++ "generation") = true ↔
        bagHasKey [("generation", Value.str "Boomer"), ("min_delay", Value.intV 30)]
          "generation" = true) ∧
       (bagHasKey [("generation", Value.str "Boomer"), ("min_delay", Value.intV 30)]
          "generation" = true →
        containsSub
          (_build_fallback_query [("generation", Value.str "Boomer"), ("min_delay", Value.intV 30)])
          (fb_filter_clause "generation") = true))) ∧
    ("origin" ∈ key_entities ∧
      (containsSub
          (_build_fallback_query [("generation", Value.str "Boomer"), ("min_delay", Value.intV 30)])
          ("$" ++ "origin") = true ↔
        bagHasKey [("generation", Value.str "Boomer"), ("min_delay", Value.intV 30)]
          "origin" = true)) :=
  ⟨⟨by decide, C7_fallback _ "generation" (by decide)⟩,
   ⟨by decide, (C7_fallback _ "origin" (by decide)).1⟩⟩

end Airline
